import Mathlib

/-!
Shallow embedding of src/cbreeze.py, a terminal wind-particle simulation.

Modelling conventions:
* Python floats are embedded as exact rationals.  The numeric literals of
  the source (0.03, 0.15, 0.4, ...) are written as the corresponding
  rationals.
* The math library functions sin, cos and the constant pi are external to
  the program; they are passed as an explicit parameter of type MathModel.
* random.random() is modelled by an explicit stream of unit-interval draws
  (an RNG value), threaded through every function exactly in the order the
  source consumes draws, including the short-circuit evaluation of
  "not self.gust_active and random.random() < gust_chance" (when the gust
  is active no draw is consumed there).  random.uniform, random.randint and
  random.choice are derived from one unit draw each, as in CPython.
* Glyphs are represented by their index into the WIND_CHARS and
  WIND_PARTICLES tables (lengths 18 and 8); the glyph identity is opaque.
* The curses surface is modelled by an explicit list of attempted cell
  writes; curses.error on an out-of-bounds write is an Except error, and
  the try/except pass blocks of the source are modelled where they occur.
* Wall-clock throttling (time.time, time.sleep) has no effect on any state
  the claims mention and is omitted.
-/

namespace Cbreeze

/-- UPDATE_INTERVAL = 0.03 from the source. -/
def UPDATE_INTERVAL : ℚ := 3/100

/-- Number of entries of the WIND_CHARS table in the source. -/
def WIND_CHARS_COUNT : Nat := 18

/-- Number of entries of the WIND_PARTICLES table in the source. -/
def WIND_PARTICLES_COUNT : Nat := 8

/-- The external math library: sin, cos and pi, imported by the source
from the math module.  Kept abstract; the embedding is parametric in it. -/
structure MathModel where
  sin : ℚ → ℚ
  cos : ℚ → ℚ
  pi : ℚ

/-- A random source: an infinite stream of unit-interval draws together
with the position of the next draw. -/
structure RNG where
  stream : Nat → ℚ
  pos : Nat

/-- Consume one draw (random.random()). -/
def RNG.next (g : RNG) : ℚ × RNG :=
  (g.stream g.pos, ⟨g.stream, g.pos + 1⟩)

/-- The draws of the stream all lie in the unit interval [0,1), as
random.random() guarantees. -/
def UnitStream (g : RNG) : Prop :=
  ∀ n, 0 ≤ g.stream n ∧ g.stream n < 1

/-- random.uniform(a, b): a + (b - a) * random.random(). -/
def uniform (a b : ℚ) (g : RNG) : ℚ × RNG :=
  let (u, g') := g.next
  (a + (b - a) * u, g')

/-- random.randint(a, b): an integer of [a, b], both ends included. -/
def randint (a b : ℤ) (g : RNG) : ℤ × RNG :=
  let (u, g') := g.next
  (a + ⌊u * ((b : ℚ) - (a : ℚ) + 1)⌋, g')

/-- random.choice on a table of n entries, returning the chosen index. -/
def choiceIdx (n : Nat) (g : RNG) : Nat × RNG :=
  let (u, g') := g.next
  ((⌊u * (n : ℚ)⌋).toNat, g')

/-- Python int() on a float: truncation toward zero. -/
def pyInt (q : ℚ) : ℤ :=
  if 0 ≤ q then ⌊q⌋ else ⌈q⌉

/-- The state of one WindParticle, fields as in WindParticle.__init__.
char and density_char hold indices into the glyph tables. -/
structure WindParticle where
  x : ℚ
  y : ℚ
  max_rows : ℤ
  max_cols : ℤ
  speed : ℚ
  char : Nat
  amplitude : ℚ
  frequency : ℚ
  phase : ℚ
  original_x : ℚ
  lifetime : ℚ
  age : ℚ
  density_char : Nat
  density : ℚ
  density_mode : Bool
  layer : ℤ
  opacity : ℚ
deriving Repr, DecidableEq

/-- WindParticle.__init__(x, y, max_rows, max_cols, density_mode):
samples the motion parameters in the order the constructor runs. -/
def WindParticle.init (M : MathModel) (x y : ℚ) (max_rows max_cols : ℤ)
    (density_mode : Bool) (g : RNG) : WindParticle × RNG :=
  let (speed, g) := uniform (1/2) (3/2) g
  let (char, g) := choiceIdx WIND_CHARS_COUNT g
  let (amplitude, g) := uniform (4/5) 3 g
  let (frequency, g) := uniform (1/5) (1/2) g
  let (phase, g) := uniform 0 (2 * M.pi) g
  let (lifetime, g) := uniform 2 6 g
  let (density_char, g) := choiceIdx WIND_PARTICLES_COUNT g
  let (density, g) := g.next
  let (layer, g) := randint 1 3 g
  let (opacity, g) := uniform (7/10) 1 g
  (⟨x, y, max_rows, max_cols, speed, char, amplitude, frequency, phase,
    x, lifetime, 0, density_char, density, density_mode, layer, opacity⟩, g)

/-- WindParticle.reset(): respawn the particle, resampling every motion
field and zeroing age, exactly in the order of the source. -/
def WindParticle.reset (p : WindParticle) (M : MathModel) (g : RNG) :
    WindParticle × RNG :=
  let (r, g) := g.next
  let (x, g) :=
    if r < 3/10 then ((0 : ℚ), g)
    else
      let (xi, g) := randint 0 (p.max_cols - 1) g
      ((xi : ℚ), g)
  let (yi, g) := randint 0 (p.max_rows - 1) g
  let (speed, g) := uniform (1/2) (3/2) g
  let (char, g) := choiceIdx WIND_CHARS_COUNT g
  let (amplitude, g) := uniform (4/5) 3 g
  let (frequency, g) := uniform (1/5) (1/2) g
  let (phase, g) := uniform 0 (2 * M.pi) g
  let (lifetime, g) := uniform 2 6 g
  let (density_char, g) := choiceIdx WIND_PARTICLES_COUNT g
  let (density, g) := g.next
  let (layer, g) := randint 1 3 g
  let (opacity, g) := uniform (7/10) 1 g
  ({ p with
      x := x, y := (yi : ℚ), speed := speed, char := char,
      amplitude := amplitude, frequency := frequency, phase := phase,
      lifetime := lifetime, age := 0, density_char := density_char,
      density := density, layer := layer, opacity := opacity }, g)

/-- Lines 48-57 of WindParticle.update: the age increment, the
horizontal advance and the wave displacement. -/
def WindParticle.moveStage (p : WindParticle) (M : MathModel)
    (wind_strength wind_direction : ℚ) : WindParticle :=
  let p := { p with age := p.age + UPDATE_INTERVAL }
  let layer_speed := p.speed * (1 + ((p.layer : ℚ) - 1) * (3/10))
  let p := { p with x := p.x + layer_speed * wind_strength * wind_direction }
  let base_wave := M.sin (p.age * p.frequency * 8 + p.phase) * p.amplitude
  let secondary_wave := M.cos (p.age * p.frequency * 4 + p.phase * 2) * p.amplitude * (3/10)
  let wave_offset := (base_wave + secondary_wave) * (2/5)
  { p with y := p.y + wave_offset }

/-- Lines 59-60 of WindParticle.update: reset on horizontal exit. -/
def WindParticle.horizStage (p : WindParticle) (M : MathModel) (g : RNG) :
    WindParticle × RNG :=
  if (p.max_cols : ℚ) ≤ p.x ∨ p.x < 0 then p.reset M g else (p, g)

/-- Lines 62-67 of WindParticle.update: clamp a vertical exit to the
edge and invert the phase. -/
def WindParticle.vertStage (p : WindParticle) (M : MathModel) : WindParticle :=
  if (p.max_rows : ℚ) ≤ p.y then
    { p with y := (p.max_rows : ℚ) - 1, phase := p.phase + M.pi }
  else if p.y < 0 then
    { p with y := 0, phase := p.phase + M.pi }
  else p

/-- Lines 69-71 of WindParticle.update: reset when the lifetime
expired. -/
def WindParticle.lifetimeStage (p : WindParticle) (M : MathModel) (g : RNG) :
    WindParticle × RNG :=
  if p.lifetime ≤ p.age then p.reset M g else (p, g)

/-- WindParticle.update(wind_strength, wind_direction): age increment,
horizontal advance, wave displacement, then in order the horizontal-exit
reset, the vertical clamp with phase inversion, and the lifetime reset. -/
def WindParticle.update (p : WindParticle) (M : MathModel)
    (wind_strength wind_direction : ℚ) (g : RNG) : WindParticle × RNG :=
  let p := p.moveStage M wind_strength wind_direction
  let (p, g) := p.horizStage M g
  let p := p.vertStage M
  p.lifetimeStage M g

/-- The state of a WindSimulation.  The curses screen handle, the color
name and the wall-clock fields are external and carry no simulated state;
density layer cells are none for a blank and some i for the glyph of
index i of the WIND_PARTICLES table. -/
structure WindSim where
  show_density : Bool
  high_density : Bool
  wind_strength : ℚ
  wind_direction : ℤ
  base_wind_strength : ℚ
  wind_variation_timer : ℚ
  gust_timer : ℚ
  gust_active : Bool
  gust_strength : ℚ
  particles : List WindParticle
  rows : ℤ
  cols : ℤ
  frame_count : Nat
  density_layers : List (List (Option Nat))
deriving Repr, DecidableEq

/-- WindSimulation.init_density_layers(): three layers of rows*cols
blank cells. -/
def WindSim.init_density_layers (s : WindSim) : List (List (Option Nat)) :=
  List.replicate 3 (List.replicate (s.cols.toNat * s.rows.toNat) none)

/-- WindSimulation.__init__(stdscr, wind_color, show_density,
high_density): the simulated-state fields of the constructor. -/
def WindSim.mkInitial (show_density high_density : Bool) (rows cols : ℤ) :
    WindSim :=
  let s : WindSim :=
    { show_density := show_density, high_density := high_density,
      wind_strength := 1, wind_direction := 1, base_wind_strength := 1,
      wind_variation_timer := 0, gust_timer := 0, gust_active := false,
      gust_strength := 0, particles := [], rows := rows, cols := cols,
      frame_count := 0, density_layers := [] }
  { s with density_layers := s.init_density_layers }

/-- Lines 146-150 of update_wind_pattern: advance the variation timer
and recompute base_wind_strength from it. -/
def WindSim.windVariationStage (s : WindSim) (M : MathModel) : WindSim :=
  let s := { s with wind_variation_timer := s.wind_variation_timer + UPDATE_INTERVAL }
  let base_variation := M.sin (s.wind_variation_timer * (4/5)) * (2/5)
  let secondary_variation := M.cos (s.wind_variation_timer * (3/10)) * (1/5)
  { s with base_wind_strength := max (1/2) (6/5 + base_variation + secondary_variation) }

/-- Lines 152-158 of update_wind_pattern: when inactive, with the
per-tick chance, activate a gust, zero its timer and sample its peak
strength.  The chance draw is consumed only when the gust is inactive
(Python short-circuit and). -/
def WindSim.gustTriggerStage (s : WindSim) (g : RNG) : WindSim × RNG :=
  let gust_chance : ℚ := if s.high_density then 1/100 else 1/200
  if s.gust_active then (s, g)
  else
    let (r, g) := g.next
    if r < gust_chance then
      let (gs, g) := uniform (5/2) 5 g
      ({ s with gust_active := true, gust_timer := 0, gust_strength := gs }, g)
    else (s, g)

/-- Lines 160-178 of update_wind_pattern: while active, advance the gust
timer, sample a fresh gust_duration (the source resamples it on every
active tick), and either apply the ramp/plateau/ramp envelope or
deactivate; when inactive, wind_strength is the base strength. -/
def WindSim.gustEnvelopeStage (s : WindSim) (g : RNG) : WindSim × RNG :=
  if s.gust_active then
    let s := { s with gust_timer := s.gust_timer + UPDATE_INTERVAL }
    let (gust_duration, g) := uniform (3/10) (6/5) g
    if s.gust_timer < gust_duration then
      let progress := s.gust_timer / gust_duration
      let gust_multiplier :=
        if progress < 1/5 then progress / (1/5)
        else if progress < 4/5 then (1 : ℚ)
        else 1 - (progress - 4/5) / (1/5)
      ({ s with wind_strength := s.base_wind_strength + s.gust_strength * gust_multiplier }, g)
    else
      ({ s with gust_active := false, wind_strength := s.base_wind_strength }, g)
  else ({ s with wind_strength := s.base_wind_strength }, g)

/-- Lines 180-183 of update_wind_pattern: flip the direction with the
per-tick chance. -/
def WindSim.directionStage (s : WindSim) (g : RNG) : WindSim × RNG :=
  let direction_chance : ℚ := if s.high_density then 3/1000 else 1/1000
  let (r, g) := g.next
  if r < direction_chance then
    ({ s with wind_direction := -s.wind_direction }, g)
  else (s, g)

/-- WindSimulation.update_wind_pattern(): advance the variation timer,
recompute base_wind_strength, possibly trigger a gust, evaluate the gust
envelope (resampling gust_duration on every active tick, as the source
does), and possibly flip the direction. -/
def WindSim.update_wind_pattern (s : WindSim) (M : MathModel) (g : RNG) :
    WindSim × RNG :=
  let s := s.windVariationStage M
  let (s, g) := s.gustTriggerStage g
  let (s, g) := s.gustEnvelopeStage g
  s.directionStage g

/-- The target particle count of WindSimulation.generate_particles():
min(int(cols * rows * 0.15), 2000) in high-density mode, int(cols * 0.5)
otherwise. -/
def WindSim.target_count (s : WindSim) : ℤ :=
  if s.high_density then
    min (pyInt ((s.cols : ℚ) * (s.rows : ℚ) * (15/100))) 2000
  else pyInt ((s.cols : ℚ) * (1/2))

/-- The while-loop body of generate_particles, iterated n times: append a
particle at a uniformly random grid cell. -/
def spawnN (M : MathModel) (rows cols : ℤ) (density_mode : Bool) :
    Nat → List WindParticle → RNG → List WindParticle × RNG
  | 0, ps, g => (ps, g)
  | n + 1, ps, g =>
    let (xi, g) := randint 0 (cols - 1) g
    let (yi, g) := randint 0 (rows - 1) g
    let (p, g) := WindParticle.init M (xi : ℚ) (yi : ℚ) rows cols density_mode g
    spawnN M rows cols density_mode n (ps ++ [p]) g

/-- WindSimulation.generate_particles(): append particles while the count
is below the target; never removes a particle. -/
def WindSim.generate_particles (s : WindSim) (M : MathModel) (g : RNG) :
    WindSim × RNG :=
  let n := (s.target_count - s.particles.length).toNat
  let (ps, g) := spawnN M s.rows s.cols s.show_density n s.particles g
  ({ s with particles := ps }, g)

/-- The density glyph index of a particle in update_density_map:
WIND_PARTICLES[min(int(density * len), len - 1)]. -/
def densityCharIdx (p : WindParticle) : Nat :=
  (min (pyInt (p.density * (WIND_PARTICLES_COUNT : ℚ)))
    ((WIND_PARTICLES_COUNT : ℤ) - 1)).toNat

/-- WindSimulation.update_density_map(): clear every layer, then write
each in-bounds particle density glyph into the layer min(layer-1, 2) at
the flattened index y*cols + x. -/
def WindSim.update_density_map (s : WindSim) : List (List (Option Nat)) :=
  let cleared := s.density_layers.map (fun layer => layer.map (fun _ => none))
  s.particles.foldl (fun layers p =>
    let x := pyInt p.x
    let y := pyInt p.y
    if 0 ≤ x ∧ x < s.cols ∧ 0 ≤ y ∧ y < s.rows then
      let idx := (y * s.cols + x).toNat
      let li := (min (p.layer - 1) ((layers.length : ℤ) - 1)).toNat
      layers.set li ((layers.getD li []).set idx (some (densityCharIdx p)))
    else layers) cleared

/-- The for-loop of WindSimulation.update() over self.particles, each
particle updated in place with the current strength and direction. -/
def updateParticles (M : MathModel) (ws dir : ℚ) :
    List WindParticle → RNG → List WindParticle × RNG
  | [], g => ([], g)
  | p :: ps, g =>
    let (p', g) := p.update M ws dir g
    let (ps', g) := updateParticles M ws dir ps g
    (p' :: ps', g)

/-- Lines 232-234 of WindSimulation.update(): update every particle in
place with the current strength and direction. -/
def WindSim.advanceParticlesStep (s : WindSim) (M : MathModel) (g : RNG) :
    WindSim × RNG :=
  let (ps, g) := updateParticles M s.wind_strength (s.wind_direction : ℚ) s.particles g
  ({ s with particles := ps }, g)

/-- Lines 236-238 of WindSimulation.update(): rebuild the density map
when density mode is shown. -/
def WindSim.densityStep (s : WindSim) : WindSim :=
  if s.show_density then { s with density_layers := s.update_density_map }
  else s

/-- WindSimulation.update(): wind pattern, particle generation, particle
updates, and the density map when density mode is shown.  The wall-clock
throttling of the source changes no simulated state. -/
def WindSim.update (s : WindSim) (M : MathModel) (g : RNG) : WindSim × RNG :=
  let s := { s with frame_count := s.frame_count + 1 }
  let (s, g) := s.update_wind_pattern M g
  let (s, g) := s.generate_particles M g
  let (s, g) := s.advanceParticlesStep M g
  (s.densityStep, g)

/-- The key commands of the wind_simulation loop that mutate simulation
state.  Quit only leaves the loop and is not a state transition. -/
inductive Event where
  | toggleDensityView
  | toggleDensityLevel
  | increaseWind
  | decreaseWind
  | dirRight
  | dirLeft
  | resize (rows cols : ℤ)
deriving Repr, DecidableEq

/-- The key-handling branch of the wind_simulation loop body; none means
no pending key this iteration. -/
def handleEvent (s : WindSim) : Option Event → WindSim
  | none => s
  | some .toggleDensityView =>
    let s := { s with show_density := !s.show_density }
    if s.show_density then { s with density_layers := s.init_density_layers }
    else s
  | some .toggleDensityLevel =>
    { s with high_density := !s.high_density, particles := [] }
  | some .increaseWind =>
    { s with base_wind_strength := min 8 (s.base_wind_strength + 3/10) }
  | some .decreaseWind =>
    { s with base_wind_strength := max (1/10) (s.base_wind_strength - 3/10) }
  | some .dirRight => { s with wind_direction := 1 }
  | some .dirLeft => { s with wind_direction := -1 }
  | some (.resize rows cols) =>
    let s := { s with rows := rows, cols := cols, particles := [] }
    { s with density_layers := s.init_density_layers }

/-- One iteration of the wind_simulation loop: handle the pending key,
then advance the simulation (drawing mutates only the screen). -/
def loopIter (M : MathModel) (s : WindSim) (e : Option Event) (g : RNG) :
    WindSim × RNG :=
  WindSim.update (handleEvent s e) M g

/-- Run the wind_simulation loop over a list of per-iteration pending
keys. -/
def runEvents (M : MathModel) : WindSim → List (Option Event) → RNG →
    WindSim × RNG
  | s, [], g => (s, g)
  | s, e :: es, g => runEvents M (loopIter M s e g).1 es (loopIter M s e g).2

/-- A curses attribute: a color pair index with the bold and dim
modifiers. -/
structure Attr where
  pairIdx : Nat
  bold : Bool
  dim : Bool
deriving Repr, DecidableEq

/-- One performed cell write on the curses surface. -/
structure CellWrite where
  y : ℤ
  x : ℤ
  ch : Nat
  attr : Attr
deriving Repr, DecidableEq

/-- stdscr.addstr(y, x, ch, attr): succeeds with the write when the cell
lies on the surface, raises curses.error otherwise. -/
def addstr (rows cols : ℤ) (y x : ℤ) (ch : Nat) (a : Attr) :
    Except Unit CellWrite :=
  if 0 ≤ y ∧ y < rows ∧ 0 ≤ x ∧ x < cols then .ok ⟨y, x, ch, a⟩
  else .error ()

/-- A try/except curses.error: pass around one addstr call: the write is
kept on success and silently dropped on error. -/
def handled (r : Except Unit CellWrite) : List CellWrite :=
  match r with
  | .ok w => [w]
  | .error _ => []

/-- The sorted(self.particles, key=lambda p: p.layer) of
draw_particles. -/
def sortByLayer (ps : List WindParticle) : List WindParticle :=
  ps.mergeSort (fun a b => a.layer ≤ b.layer)

/-- The attribute selection of draw_particles for one particle. -/
def particleAttr (s : WindSim) (p : WindParticle) : Attr :=
  if s.gust_active ∧ 2 < s.wind_strength then
    if 6/5 < p.speed then ⟨2, true, false⟩
    else ⟨6, true, false⟩
  else
    if p.layer = 1 then ⟨1, false, true⟩
    else if p.layer = 2 then ⟨1, false, false⟩
    else ⟨1, true, false⟩

/-- The body of the draw_particles loop for one particle: the whole body
runs under try/except curses.error: pass, and the addstr is guarded by
the explicit integer-cell bounds test of the source. -/
def drawParticle (s : WindSim) (p : WindParticle) : List CellWrite :=
  let a := particleAttr s p
  if 0 ≤ pyInt p.y ∧ pyInt p.y < s.rows ∧ 0 ≤ pyInt p.x ∧ pyInt p.x < s.cols then
    handled (addstr s.rows s.cols (pyInt p.y) (pyInt p.x) p.char a)
  else []

/-- WindSimulation.draw_particles(): the particles sorted by ascending
layer, each drawn at its truncated integer cell. -/
def WindSim.draw_particles (s : WindSim) : List CellWrite :=
  (sortByLayer s.particles).flatMap (drawParticle s)

/-- WindSimulation.draw_density(): for each layer and each grid cell, a
non-blank cell is drawn with the layer color (bold on the top layer),
each addstr under its own try/except curses.error: pass. -/
def WindSim.draw_density (s : WindSim) : List CellWrite :=
  (s.density_layers.enum).flatMap (fun li =>
    let a : Attr := ⟨3 + li.1, li.1 == 2, false⟩
    (List.range s.rows.toNat).flatMap (fun yr =>
      (List.range s.cols.toNat).flatMap (fun xr =>
        let idx := yr * s.cols.toNat + xr
        match li.2.getD idx none with
        | none => []
        | some ch => handled (addstr s.rows s.cols (yr : ℤ) (xr : ℤ) ch a))))

/-- WindSimulation.draw() without the UI overlay: density visualization
when enabled, discrete particles otherwise. -/
def WindSim.draw (s : WindSim) : List CellWrite :=
  if s.show_density then s.draw_density else s.draw_particles

/-- Written from the words of claim C1, for comparison with the source:
a wind-pattern step in which the gust duration is sampled once, at
activation, is stored in the state, and governs the whole gust
(deactivation when the elapsed time reaches or exceeds it).  The state
adds the planned_duration field the claim describes; everything else
follows WindSim.update_wind_pattern. -/
structure WindStateC1 where
  high_density : Bool
  wind_strength : ℚ
  wind_direction : ℤ
  base_wind_strength : ℚ
  wind_variation_timer : ℚ
  gust_timer : ℚ
  gust_active : Bool
  gust_strength : ℚ
  planned_duration : ℚ
deriving Repr, DecidableEq

/-- Written from the words of claim C1: the variation-timer and base
strength step, unchanged from the source. -/
def windVariationStageClaimC1 (s : WindStateC1) (M : MathModel) : WindStateC1 :=
  let s := { s with wind_variation_timer := s.wind_variation_timer + UPDATE_INTERVAL }
  let base_variation := M.sin (s.wind_variation_timer * (4/5)) * (2/5)
  let secondary_variation := M.cos (s.wind_variation_timer * (3/10)) * (1/5)
  { s with base_wind_strength := max (1/2) (6/5 + base_variation + secondary_variation) }

/-- Written from the words of claim C1: on activation, sample the peak
multiplier and then the duration, both once, storing the duration. -/
def gustTriggerStageClaimC1 (s : WindStateC1) (g : RNG) : WindStateC1 × RNG :=
  let gust_chance : ℚ := if s.high_density then 1/100 else 1/200
  if s.gust_active then (s, g)
  else
    let (r, g) := g.next
    if r < gust_chance then
      let (gs, g) := uniform (5/2) 5 g
      let (gd, g) := uniform (3/10) (6/5) g
      let s' := { s with gust_active := true, gust_timer := 0, gust_strength := gs }
      ({ s' with planned_duration := gd }, g)
    else (s, g)

/-- Written from the words of claim C1: the envelope reads the stored
planned duration (no fresh draw), and the gust deactivates when the
elapsed time reaches or exceeds it, with currentStrength set back to
baseStrength. -/
def gustEnvelopeStageClaimC1 (s : WindStateC1) (g : RNG) : WindStateC1 × RNG :=
  if s.gust_active then
    let s := { s with gust_timer := s.gust_timer + UPDATE_INTERVAL }
    if s.gust_timer < s.planned_duration then
      let progress := s.gust_timer / s.planned_duration
      let gust_multiplier :=
        if progress < 1/5 then progress / (1/5)
        else if progress < 4/5 then (1 : ℚ)
        else 1 - (progress - 4/5) / (1/5)
      ({ s with wind_strength := s.base_wind_strength + s.gust_strength * gust_multiplier }, g)
    else
      ({ s with gust_active := false, wind_strength := s.base_wind_strength }, g)
  else ({ s with wind_strength := s.base_wind_strength }, g)

/-- Written from the words of claim C1: direction flip, unchanged from
the source. -/
def directionStageClaimC1 (s : WindStateC1) (g : RNG) : WindStateC1 × RNG :=
  let direction_chance : ℚ := if s.high_density then 3/1000 else 1/1000
  let (r, g) := g.next
  if r < direction_chance then
    ({ s with wind_direction := -s.wind_direction }, g)
  else (s, g)

/-- Written from the words of claim C1: sample the duration together with
the peak multiplier at activation and deactivate when elapsed reaches or
exceeds that single duration. -/
def updateWindPatternClaimC1 (s : WindStateC1) (M : MathModel) (g : RNG) :
    WindStateC1 × RNG :=
  let s := windVariationStageClaimC1 s M
  let (s, g) := gustTriggerStageClaimC1 s g
  let (s, g) := gustEnvelopeStageClaimC1 s g
  directionStageClaimC1 s g

/-- Iterate the wind-pattern step of the source n times. -/
def iterWindPattern (M : MathModel) : Nat → WindSim → RNG → WindSim × RNG
  | 0, s, g => (s, g)
  | n + 1, s, g =>
    let (s', g') := s.update_wind_pattern M g
    iterWindPattern M n s' g'

/-- Iterate the claim C1 wind-pattern step n times. -/
def iterWindPatternClaimC1 (M : MathModel) :
    Nat → WindStateC1 → RNG → WindStateC1 × RNG
  | 0, s, g => (s, g)
  | n + 1, s, g =>
    let (s', g') := updateWindPatternClaimC1 s M g
    iterWindPatternClaimC1 M n s' g'

/-- Written from the words of claim C5, for comparison with the source:
the motion substeps in the order the claim describes, x update, then y
update via the wave formula reading the pre-increment age, then the age
increment. -/
def moveStageClaimC5 (p : WindParticle) (M : MathModel)
    (wind_strength wind_direction : ℚ) : WindParticle :=
  let layer_speed := p.speed * (1 + ((p.layer : ℚ) - 1) * (3/10))
  let p := { p with x := p.x + layer_speed * wind_strength * wind_direction }
  let base_wave := M.sin (p.age * p.frequency * 8 + p.phase) * p.amplitude
  let secondary_wave := M.cos (p.age * p.frequency * 4 + p.phase * 2) * p.amplitude * (3/10)
  let wave_offset := (base_wave + secondary_wave) * (2/5)
  let p := { p with y := p.y + wave_offset }
  { p with age := p.age + UPDATE_INTERVAL }

/-- Written from the words of claim C5: the particle step with the
claimed substep order; the boundary and lifetime handling is unchanged
from the source. -/
def updateParticleClaimC5 (p : WindParticle) (M : MathModel)
    (wind_strength wind_direction : ℚ) (g : RNG) : WindParticle × RNG :=
  let p := moveStageClaimC5 p M wind_strength wind_direction
  let (p, g) := p.horizStage M g
  let p := p.vertStage M
  p.lifetimeStage M g

/-- The terminal surface as a map from cells to their content. -/
def Screen : Type := ℤ × ℤ → Option (Nat × Attr)

/-- Perform a list of cell writes on a screen, in order. -/
def applyWrites (scr : Screen) (ws : List CellWrite) : Screen :=
  ws.foldl (fun scr w => fun c =>
    if c = (w.y, w.x) then some (w.ch, w.attr) else scr c) scr

/-- Written from the words of claim C8: if a gust is active and the
current wind strength exceeds 2.0, a bold emphasized fast attribute
(white, pair 2) when the particle speed exceeds 1.2 and a secondary
medium attribute (magenta, pair 6, bold) otherwise; else an attribute
keyed only by layer (1 dim, 2 normal, 3 bold) in the configured wind
hue (pair 1). -/
def claimAttrC8 (s : WindSim) (p : WindParticle) : Attr :=
  if s.gust_active ∧ 2 < s.wind_strength then
    if 6/5 < p.speed then ⟨2, true, false⟩
    else ⟨6, true, false⟩
  else
    if p.layer = 1 then ⟨1, false, true⟩
    else if p.layer = 2 then ⟨1, false, false⟩
    else ⟨1, true, false⟩

/-- The simulation-state invariant behind claim C2: the population never
exceeds the nonnegative part of the current spawn target, and the grid
dimensions are nonnegative. -/
def countInv (s : WindSim) : Prop :=
  (s.particles.length : ℤ) ≤ max s.target_count 0 ∧ 0 ≤ s.rows ∧ 0 ≤ s.cols

instance countInv_dec (s : WindSim) : Decidable (countInv s) := by
  unfold countInv
  infer_instance

/-- A well-formed pending key: resize notifications carry nonnegative
dimensions (curses getmaxyx never reports negative sizes). -/
def eventWF : Option Event → Bool
  | some (.resize r c) => decide (0 ≤ r) && decide (0 ≤ c)
  | _ => true

section Lemmas

lemma uniform_bounds {a b : ℚ} (hab : a ≤ b) {u : ℚ} (h0 : 0 ≤ u) (h1 : u < 1) :
    a ≤ a + (b - a) * u ∧ a + (b - a) * u ≤ b := by
  constructor
  · nlinarith
  · nlinarith

lemma randint_bounds {a b : ℤ} (hab : a ≤ b) {u : ℚ} (h0 : 0 ≤ u) (h1 : u < 1) :
    a ≤ a + ⌊u * ((b : ℚ) - (a : ℚ) + 1)⌋ ∧
      a + ⌊u * ((b : ℚ) - (a : ℚ) + 1)⌋ ≤ b := by
  have hk : (0 : ℚ) < (b : ℚ) - a + 1 := by
    have h : (a : ℚ) ≤ b := by exact_mod_cast hab
    linarith
  constructor
  · have h := Int.floor_nonneg.mpr (mul_nonneg h0 hk.le)
    omega
  · have hlt : u * ((b : ℚ) - a + 1) < ((b - a + 1 : ℤ) : ℚ) := by
      push_cast
      nlinarith
    have h := Int.floor_lt.mpr hlt
    omega

lemma floor_unit_mul_bounds {u : ℚ} (h0 : 0 ≤ u) (h1 : u < 1) {n : ℤ} (hn : 1 ≤ n) :
    0 ≤ ⌊u * (n : ℚ)⌋ ∧ ⌊u * (n : ℚ)⌋ ≤ n - 1 := by
  have hnq : (1:ℚ) ≤ (n:ℚ) := by exact_mod_cast hn
  constructor
  · exact Int.floor_nonneg.mpr (mul_nonneg h0 (by linarith))
  · have hlt : u * (n:ℚ) < ((n:ℤ) : ℚ) := by
      push_cast
      nlinarith
    have h := Int.floor_lt.mpr hlt
    omega

lemma reset_props (p : WindParticle) (M : MathModel) (g : RNG) (hg : UnitStream g)
    (hr : 1 ≤ p.max_rows) (hc : 1 ≤ p.max_cols) :
    0 ≤ (p.reset M g).1.x ∧ (p.reset M g).1.x ≤ (p.max_cols : ℚ) - 1 ∧
    0 ≤ (p.reset M g).1.y ∧ (p.reset M g).1.y ≤ (p.max_rows : ℚ) - 1 ∧
    (p.reset M g).1.age = 0 ∧ 2 ≤ (p.reset M g).1.lifetime ∧
    (p.reset M g).1.max_rows = p.max_rows ∧
    (p.reset M g).1.max_cols = p.max_cols := by
  simp only [WindParticle.reset, uniform, RNG.next, choiceIdx, randint]
  split_ifs with h
  · have hy := floor_unit_mul_bounds (hg (g.pos + 1)).1 (hg (g.pos + 1)).2 hr
    have hl0 := (hg (g.pos + 7)).1
    have hl1 := (hg (g.pos + 7)).2
    refine ⟨by norm_num, ?_, ?_, ?_, trivial, ?_, trivial, trivial⟩
    · have hcq : (1:ℚ) ≤ (p.max_cols : ℚ) := by exact_mod_cast hc
      simp
      linarith
    · simp
      exact_mod_cast hy.1
    · simp
      have h3 : ((⌊g.stream (g.pos + 1) * (p.max_rows : ℚ)⌋ : ℤ) : ℚ) ≤
          ((p.max_rows - 1 : ℤ) : ℚ) := by exact_mod_cast hy.2
      push_cast at h3
      linarith
    · simp
      nlinarith
  · have hx := floor_unit_mul_bounds (hg (g.pos + 1)).1 (hg (g.pos + 1)).2 hc
    have hy := floor_unit_mul_bounds (hg (g.pos + 2)).1 (hg (g.pos + 2)).2 hr
    have hl0 := (hg (g.pos + 8)).1
    have hl1 := (hg (g.pos + 8)).2
    refine ⟨?_, ?_, ?_, ?_, trivial, ?_, trivial, trivial⟩
    · simp
      exact_mod_cast hx.1
    · simp
      have h3 : ((⌊g.stream (g.pos + 1) * (p.max_cols : ℚ)⌋ : ℤ) : ℚ) ≤
          ((p.max_cols - 1 : ℤ) : ℚ) := by exact_mod_cast hx.2
      push_cast at h3
      linarith
    · simp
      exact_mod_cast hy.1
    · simp
      have h3 : ((⌊g.stream (g.pos + 2) * (p.max_rows : ℚ)⌋ : ℤ) : ℚ) ≤
          ((p.max_rows - 1 : ℤ) : ℚ) := by exact_mod_cast hy.2
      push_cast at h3
      linarith
    · simp
      nlinarith

lemma moveStage_max_rows (p : WindParticle) (M : MathModel) (ws dir : ℚ) :
    (p.moveStage M ws dir).max_rows = p.max_rows := rfl

lemma moveStage_max_cols (p : WindParticle) (M : MathModel) (ws dir : ℚ) :
    (p.moveStage M ws dir).max_cols = p.max_cols := rfl

lemma moveStage_lifetime (p : WindParticle) (M : MathModel) (ws dir : ℚ) :
    (p.moveStage M ws dir).lifetime = p.lifetime := rfl

lemma moveStage_phase (p : WindParticle) (M : MathModel) (ws dir : ℚ) :
    (p.moveStage M ws dir).phase = p.phase := rfl

lemma moveStage_age (p : WindParticle) (M : MathModel) (ws dir : ℚ) :
    (p.moveStage M ws dir).age = p.age + UPDATE_INTERVAL := rfl

lemma gust_mult_pos {timer d : ℚ} (htimer : 0 < timer) (hd : 0 < d)
    (hlt : timer < d) :
    0 < (if timer / d < 1/5 then (timer / d) / (1/5)
      else if timer / d < 4/5 then (1 : ℚ)
      else 1 - (timer / d - 4/5) / (1/5)) := by
  have hp : 0 < timer / d := div_pos htimer hd
  have hp1 : timer / d < 1 := (div_lt_one hd).mpr hlt
  split_ifs with h1 h2
  · positivity
  · norm_num
  · have he : (timer / d - 4/5) / (1/5) = 5 * (timer / d) - 4 := by ring
    rw [he]
    linarith

lemma unitStream_congr {g g' : RNG} (hs : g'.stream = g.stream)
    (hg : UnitStream g) : UnitStream g' := fun n => hs ▸ hg n

lemma gustTriggerStage_stream (s : WindSim) (g : RNG) :
    (s.gustTriggerStage g).2.stream = g.stream := by
  simp only [WindSim.gustTriggerStage, RNG.next, uniform]
  split_ifs <;> rfl

lemma gustTriggerStage_props (s : WindSim) (g : RNG) (hg : UnitStream g)
    (ht : 0 ≤ s.gust_timer)
    (hgs : s.gust_active = true → 0 < s.gust_strength) :
    (s.gustTriggerStage g).1.base_wind_strength = s.base_wind_strength ∧
    (s.gustTriggerStage g).1.wind_variation_timer = s.wind_variation_timer ∧
    0 ≤ (s.gustTriggerStage g).1.gust_timer ∧
    ((s.gustTriggerStage g).1.gust_active = true →
      0 < (s.gustTriggerStage g).1.gust_strength) := by
  have hpos : (0:ℚ) < 5/2 + (5 - 5/2) * g.stream (g.pos + 1) := by
    have h0 := (hg (g.pos + 1)).1
    nlinarith
  simp only [WindSim.gustTriggerStage, RNG.next, uniform]
  split_ifs with h1 h2 h3 h4
  · exact ⟨rfl, rfl, ht, fun _ => hgs h1⟩
  · exact ⟨rfl, rfl, le_refl 0, fun _ => hpos⟩
  · exact ⟨rfl, rfl, ht, fun hc => hgs hc⟩
  · exact ⟨rfl, rfl, le_refl 0, fun _ => hpos⟩
  · exact ⟨rfl, rfl, ht, fun hc => hgs hc⟩

lemma gustEnvelopeStage_props (s : WindSim) (g : RNG) (hg : UnitStream g)
    (ht : 0 ≤ s.gust_timer)
    (hgs : s.gust_active = true → 0 < s.gust_strength) :
    (s.gustEnvelopeStage g).1.base_wind_strength = s.base_wind_strength ∧
    (s.gustEnvelopeStage g).1.wind_variation_timer = s.wind_variation_timer ∧
    ((s.gustEnvelopeStage g).1.gust_active = false →
      (s.gustEnvelopeStage g).1.wind_strength = s.base_wind_strength) ∧
    ((s.gustEnvelopeStage g).1.gust_active = true →
      s.base_wind_strength < (s.gustEnvelopeStage g).1.wind_strength) := by
  have hd : (0:ℚ) < 3/10 + (6/5 - 3/10) * g.stream g.pos := by
    have h0 := (hg g.pos).1
    nlinarith
  have hpos : 0 < s.gust_timer + UPDATE_INTERVAL := by
    simp only [UPDATE_INTERVAL]
    linarith
  simp only [WindSim.gustEnvelopeStage, RNG.next, uniform]
  split_ifs with h1 h2 h3 h4
  · refine ⟨rfl, rfl, fun hf => ?_, fun _ => ?_⟩
    · simp [h1] at hf
    · apply lt_add_of_pos_right
      apply mul_pos (hgs h1)
      exact div_pos (div_pos hpos hd) (by norm_num)
  · refine ⟨rfl, rfl, fun hf => ?_, fun _ => ?_⟩
    · simp [h1] at hf
    · apply lt_add_of_pos_right
      apply mul_pos (hgs h1)
      norm_num
  · refine ⟨rfl, rfl, fun hf => ?_, fun _ => ?_⟩
    · simp [h1] at hf
    · apply lt_add_of_pos_right
      apply mul_pos (hgs h1)
      have hp1 : (s.gust_timer + UPDATE_INTERVAL) /
          (3/10 + (6/5 - 3/10) * g.stream g.pos) < 1 := (div_lt_one hd).mpr h2
      have he : ((s.gust_timer + UPDATE_INTERVAL) /
            (3/10 + (6/5 - 3/10) * g.stream g.pos) - 4/5) / (1/5) =
          5 * ((s.gust_timer + UPDATE_INTERVAL) /
            (3/10 + (6/5 - 3/10) * g.stream g.pos)) - 4 := by ring
      rw [he]
      linarith
  · refine ⟨rfl, rfl, fun _ => rfl, fun hf => ?_⟩
    simp at hf
  · refine ⟨rfl, rfl, fun _ => rfl, fun htr => ?_⟩
    simp at htr
    simp [htr] at h1

lemma directionStage_fields (s : WindSim) (g : RNG) :
    (s.directionStage g).1.base_wind_strength = s.base_wind_strength ∧
    (s.directionStage g).1.wind_variation_timer = s.wind_variation_timer ∧
    (s.directionStage g).1.wind_strength = s.wind_strength ∧
    (s.directionStage g).1.gust_active = s.gust_active := by
  simp only [WindSim.directionStage, RNG.next]
  split_ifs <;> simp

lemma update_wind_pattern_stages (s : WindSim) (M : MathModel) (g : RNG) :
    s.update_wind_pattern M g =
      ((((s.windVariationStage M).gustTriggerStage g).1.gustEnvelopeStage
          ((s.windVariationStage M).gustTriggerStage g).2).1.directionStage
        (((s.windVariationStage M).gustTriggerStage g).1.gustEnvelopeStage
          ((s.windVariationStage M).gustTriggerStage g).2).2) := rfl

lemma vertStage_max_rows (p : WindParticle) (M : MathModel) :
    (p.vertStage M).max_rows = p.max_rows := by
  unfold WindParticle.vertStage
  split_ifs <;> rfl

lemma vertStage_max_cols (p : WindParticle) (M : MathModel) :
    (p.vertStage M).max_cols = p.max_cols := by
  unfold WindParticle.vertStage
  split_ifs <;> rfl

lemma vertStage_lifetime (p : WindParticle) (M : MathModel) :
    (p.vertStage M).lifetime = p.lifetime := by
  unfold WindParticle.vertStage
  split_ifs <;> rfl

lemma vertStage_age (p : WindParticle) (M : MathModel) :
    (p.vertStage M).age = p.age := by
  unfold WindParticle.vertStage
  split_ifs <;> rfl

lemma reset_age (p : WindParticle) (M : MathModel) (g : RNG) :
    (p.reset M g).1.age = 0 := by
  simp only [WindParticle.reset, uniform, RNG.next, choiceIdx, randint]

lemma reset_indep (p q : WindParticle) (M : MathModel) (g : RNG)
    (hr : q.max_rows = p.max_rows) (hc : q.max_cols = p.max_cols) :
    (q.reset M g).1 = { (p.reset M g).1 with
      original_x := q.original_x, density_mode := q.density_mode,
      max_rows := q.max_rows, max_cols := q.max_cols } := by
  simp only [WindParticle.reset, uniform, RNG.next, choiceIdx, randint]
  split_ifs with h <;>
    simp [WindParticle.mk.injEq, hr, hc]

lemma gustTriggerStage_skip (s : WindSim) (g : RNG) (hga : s.gust_active = true) :
    s.gustTriggerStage g = (s, g) := by
  unfold WindSim.gustTriggerStage
  rw [hga]
  rfl

lemma gustTriggerStage_activate (s : WindSim) (g : RNG)
    (hga : s.gust_active = false)
    (hr : g.stream g.pos < (if s.high_density then (1:ℚ)/100 else 1/200)) :
    s.gustTriggerStage g =
      ({ s with gust_active := true
                gust_timer := 0
                gust_strength := 5/2 + (5 - 5/2) * g.stream (g.pos + 1) },
       ⟨g.stream, g.pos + 1 + 1⟩) := by
  simp only [WindSim.gustTriggerStage, uniform, RNG.next]
  rw [hga]
  simp only [Bool.false_eq_true, if_false]
  rw [if_pos hr]

lemma gustEnvelopeStage_expire (s : WindSim) (g : RNG)
    (hga : s.gust_active = true)
    (hge : 3/10 + (6/5 - 3/10) * g.stream g.pos ≤ s.gust_timer + UPDATE_INTERVAL) :
    (s.gustEnvelopeStage g).1.gust_active = false ∧
    (s.gustEnvelopeStage g).1.wind_strength = s.base_wind_strength ∧
    (s.gustEnvelopeStage g).1.base_wind_strength = s.base_wind_strength := by
  simp only [WindSim.gustEnvelopeStage, uniform, RNG.next]
  rw [hga]
  simp only [eq_self_iff_true, if_true]
  rw [if_neg (not_lt.mpr hge)]
  exact ⟨rfl, rfl, rfl⟩

lemma gustEnvelopeStage_continue (s : WindSim) (g : RNG)
    (hga : s.gust_active = true)
    (hlt : s.gust_timer + UPDATE_INTERVAL < 3/10 + (6/5 - 3/10) * g.stream g.pos) :
    (s.gustEnvelopeStage g).1.gust_active = true ∧
    (s.gustEnvelopeStage g).1.gust_strength = s.gust_strength ∧
    (s.gustEnvelopeStage g).1.gust_timer = s.gust_timer + UPDATE_INTERVAL := by
  simp only [WindSim.gustEnvelopeStage, uniform, RNG.next]
  rw [hga]
  simp only [eq_self_iff_true, if_true]
  rw [if_pos hlt]
  exact ⟨rfl, rfl, rfl⟩



lemma directionStage_gust (s : WindSim) (g : RNG) :
    (s.directionStage g).1.gust_strength = s.gust_strength ∧
    (s.directionStage g).1.gust_timer = s.gust_timer := by
  simp only [WindSim.directionStage, RNG.next]
  split_ifs <;> simp


lemma iterWindPattern_succ (M : MathModel) (n : Nat) (s : WindSim) (g : RNG) :
    iterWindPattern M (n + 1) s g =
      iterWindPattern M n (s.update_wind_pattern M g).1
        (s.update_wind_pattern M g).2 := rfl

lemma iterWindPatternClaimC1_succ (M : MathModel) (n : Nat) (s : WindStateC1)
    (g : RNG) :
    iterWindPatternClaimC1 M (n + 1) s g =
      iterWindPatternClaimC1 M n (updateWindPatternClaimC1 s M g).1
        (updateWindPatternClaimC1 s M g).2 := rfl

lemma mem_handled_bounds {rows cols y x : ℤ} {ch : Nat} {a : Attr}
    {w : CellWrite} (hw : w ∈ handled (addstr rows cols y x ch a)) :
    0 ≤ w.y ∧ w.y < rows ∧ 0 ≤ w.x ∧ w.x < cols := by
  unfold handled addstr at hw
  split_ifs at hw with h
  · simp only [List.mem_singleton] at hw
    subst hw
    exact h
  · simp at hw

lemma draw_particles_bounds (s : WindSim) {w : CellWrite}
    (hw : w ∈ s.draw_particles) :
    0 ≤ w.y ∧ w.y < s.rows ∧ 0 ≤ w.x ∧ w.x < s.cols := by
  unfold WindSim.draw_particles at hw
  obtain ⟨p, _, hp⟩ := List.mem_flatMap.mp hw
  unfold drawParticle at hp
  split_ifs at hp with h
  · exact mem_handled_bounds hp
  · simp at hp

lemma draw_density_bounds (s : WindSim) {w : CellWrite}
    (hw : w ∈ s.draw_density) :
    0 ≤ w.y ∧ w.y < s.rows ∧ 0 ≤ w.x ∧ w.x < s.cols := by
  unfold WindSim.draw_density at hw
  obtain ⟨li, _, h1⟩ := List.mem_flatMap.mp hw
  obtain ⟨yr, _, h2⟩ := List.mem_flatMap.mp h1
  obtain ⟨xr, _, h3⟩ := List.mem_flatMap.mp h2
  dsimp only at h3
  split at h3
  · simp at h3
  · exact mem_handled_bounds h3

lemma applyWrites_frame (scr : Screen) (ws : List CellWrite) (c : ℤ × ℤ)
    (h : ∀ w ∈ ws, c ≠ (w.y, w.x)) : applyWrites scr ws c = scr c := by
  induction ws generalizing scr with
  | nil => rfl
  | cons w ws ih =>
    show applyWrites _ ws c = scr c
    rw [ih _ (fun v hv => h v (List.mem_cons_of_mem w hv))]
    simp only [if_neg (h w (List.mem_cons_self w ws))]

lemma pyInt_nonneg {q : ℚ} (h : 0 ≤ q) : 0 ≤ pyInt q := by
  unfold pyInt
  rw [if_pos h]
  exact Int.floor_nonneg.mpr h

lemma spawnN_succ (M : MathModel) (rows cols : ℤ) (dm : Bool) (n : Nat)
    (ps : List WindParticle) (g : RNG) :
    spawnN M rows cols dm (n + 1) ps g =
      spawnN M rows cols dm n
        (ps ++ [(WindParticle.init M ((randint 0 (cols - 1) g).1 : ℚ)
            ((randint 0 (rows - 1) (randint 0 (cols - 1) g).2).1 : ℚ) rows cols dm
            (randint 0 (rows - 1) (randint 0 (cols - 1) g).2).2).1])
        (WindParticle.init M ((randint 0 (cols - 1) g).1 : ℚ)
            ((randint 0 (rows - 1) (randint 0 (cols - 1) g).2).1 : ℚ) rows cols dm
            (randint 0 (rows - 1) (randint 0 (cols - 1) g).2).2).2 := rfl

lemma spawnN_append (M : MathModel) (rows cols : ℤ) (dm : Bool) :
    ∀ (n : Nat) (ps : List WindParticle) (g : RNG), ∃ tail,
      (spawnN M rows cols dm n ps g).1 = ps ++ tail ∧ tail.length = n := by
  intro n
  induction n with
  | zero => exact fun ps g => ⟨[], by simp [spawnN], rfl⟩
  | succ n ih =>
    intro ps g
    rw [spawnN_succ]
    obtain ⟨tail, h1, h2⟩ := ih
      (ps ++ [(WindParticle.init M ((randint 0 (cols - 1) g).1 : ℚ)
          ((randint 0 (rows - 1) (randint 0 (cols - 1) g).2).1 : ℚ) rows cols dm
          (randint 0 (rows - 1) (randint 0 (cols - 1) g).2).2).1])
      ((WindParticle.init M ((randint 0 (cols - 1) g).1 : ℚ)
          ((randint 0 (rows - 1) (randint 0 (cols - 1) g).2).1 : ℚ) rows cols dm
          (randint 0 (rows - 1) (randint 0 (cols - 1) g).2).2).2)
    refine ⟨(WindParticle.init M ((randint 0 (cols - 1) g).1 : ℚ)
        ((randint 0 (rows - 1) (randint 0 (cols - 1) g).2).1 : ℚ) rows cols dm
        (randint 0 (rows - 1) (randint 0 (cols - 1) g).2).2).1 :: tail, ?_,
      by simp [h2]⟩
    rw [h1]
    simp

lemma generate_particles_shape (s : WindSim) (M : MathModel) (g : RNG) :
    ∃ tail, (s.generate_particles M g).1 = { s with particles := s.particles ++ tail } ∧
      tail.length = (s.target_count - s.particles.length).toNat := by
  obtain ⟨tail, h1, h2⟩ := spawnN_append M s.rows s.cols s.show_density
    (s.target_count - s.particles.length).toNat s.particles g
  refine ⟨tail, ?_, h2⟩
  unfold WindSim.generate_particles
  rcases hsp : spawnN M s.rows s.cols s.show_density
    (s.target_count - (s.particles.length : ℤ)).toNat s.particles g with ⟨ps', g'⟩
  rw [hsp] at h1
  simp only at h1
  simp only [hsp]
  rw [h1]

lemma updateParticles_cons (M : MathModel) (ws dir : ℚ) (p : WindParticle)
    (ps : List WindParticle) (g : RNG) :
    updateParticles M ws dir (p :: ps) g =
      ((p.update M ws dir g).1 ::
        (updateParticles M ws dir ps (p.update M ws dir g).2).1,
       (updateParticles M ws dir ps (p.update M ws dir g).2).2) := rfl

lemma updateParticles_length (M : MathModel) (ws dir : ℚ) :
    ∀ (ps : List WindParticle) (g : RNG),
      (updateParticles M ws dir ps g).1.length = ps.length := by
  intro ps
  induction ps with
  | nil => exact fun g => rfl
  | cons p ps ih =>
    intro g
    rw [updateParticles_cons]
    simp only [List.length_cons, ih]

lemma gustTriggerStage_pop (s : WindSim) (g : RNG) :
    (s.gustTriggerStage g).1.particles = s.particles ∧
    (s.gustTriggerStage g).1.rows = s.rows ∧
    (s.gustTriggerStage g).1.cols = s.cols ∧
    (s.gustTriggerStage g).1.high_density = s.high_density ∧
    (s.gustTriggerStage g).1.show_density = s.show_density := by
  simp only [WindSim.gustTriggerStage, uniform, RNG.next]
  split_ifs <;> exact ⟨rfl, rfl, rfl, rfl, rfl⟩

lemma gustEnvelopeStage_pop (s : WindSim) (g : RNG) :
    (s.gustEnvelopeStage g).1.particles = s.particles ∧
    (s.gustEnvelopeStage g).1.rows = s.rows ∧
    (s.gustEnvelopeStage g).1.cols = s.cols ∧
    (s.gustEnvelopeStage g).1.high_density = s.high_density ∧
    (s.gustEnvelopeStage g).1.show_density = s.show_density := by
  simp only [WindSim.gustEnvelopeStage, uniform, RNG.next]
  split_ifs <;> exact ⟨rfl, rfl, rfl, rfl, rfl⟩

lemma directionStage_pop (s : WindSim) (g : RNG) :
    (s.directionStage g).1.particles = s.particles ∧
    (s.directionStage g).1.rows = s.rows ∧
    (s.directionStage g).1.cols = s.cols ∧
    (s.directionStage g).1.high_density = s.high_density ∧
    (s.directionStage g).1.show_density = s.show_density := by
  simp only [WindSim.directionStage, RNG.next]
  split_ifs <;> exact ⟨rfl, rfl, rfl, rfl, rfl⟩

lemma update_wind_pattern_pop (s : WindSim) (M : MathModel) (g : RNG) :
    (s.update_wind_pattern M g).1.particles = s.particles ∧
    (s.update_wind_pattern M g).1.rows = s.rows ∧
    (s.update_wind_pattern M g).1.cols = s.cols ∧
    (s.update_wind_pattern M g).1.high_density = s.high_density ∧
    (s.update_wind_pattern M g).1.show_density = s.show_density := by
  rw [update_wind_pattern_stages]
  obtain ⟨t1, t2, t3, t4, t5⟩ := gustTriggerStage_pop (s.windVariationStage M) g
  obtain ⟨e1, e2, e3, e4, e5⟩ := gustEnvelopeStage_pop _ _
  obtain ⟨d1, d2, d3, d4, d5⟩ := directionStage_pop _ _
  exact ⟨by rw [d1, e1, t1]; rfl, by rw [d2, e2, t2]; rfl,
    by rw [d3, e3, t3]; rfl, by rw [d4, e4, t4]; rfl, by rw [d5, e5, t5]; rfl⟩

lemma target_count_congr {s t : WindSim} (hr : t.rows = s.rows)
    (hc : t.cols = s.cols) (hh : t.high_density = s.high_density) :
    t.target_count = s.target_count := by
  unfold WindSim.target_count
  rw [hr, hc, hh]

lemma advanceParticlesStep_eq (s : WindSim) (M : MathModel) (g : RNG) :
    (s.advanceParticlesStep M g).1 = { s with particles :=
      (updateParticles M s.wind_strength (s.wind_direction : ℚ) s.particles g).1 } := rfl

lemma densityStep_pop (s : WindSim) :
    s.densityStep.particles = s.particles ∧
    s.densityStep.rows = s.rows ∧
    s.densityStep.cols = s.cols ∧
    s.densityStep.high_density = s.high_density := by
  unfold WindSim.densityStep
  split_ifs <;> exact ⟨rfl, rfl, rfl, rfl⟩

lemma update_stages (s : WindSim) (M : MathModel) (g : RNG) :
    (s.update M g).1 =
      (((({ s with frame_count := s.frame_count + 1 } : WindSim).update_wind_pattern M
            g).1.generate_particles M
          (({ s with frame_count := s.frame_count + 1 } : WindSim).update_wind_pattern M
            g).2).1.advanceParticlesStep M
        ((({ s with frame_count := s.frame_count + 1 } : WindSim).update_wind_pattern M
            g).1.generate_particles M
          (({ s with frame_count := s.frame_count + 1 } : WindSim).update_wind_pattern M
            g).2).2).1.densityStep := rfl



lemma countInv_update (s : WindSim) (M : MathModel) (g : RNG)
    (hs : countInv s) : countInv (s.update M g).1 := by
  obtain ⟨hlen, hrow, hcol⟩ := hs
  obtain ⟨w1, w2, w3, w4, w5⟩ :=
    update_wind_pattern_pop { s with frame_count := s.frame_count + 1 } M g
  obtain ⟨tail, hgen, hlenT⟩ := generate_particles_shape
    (({ s with frame_count := s.frame_count + 1 } : WindSim).update_wind_pattern M g).1 M
    (({ s with frame_count := s.frame_count + 1 } : WindSim).update_wind_pattern M g).2
  rw [update_stages]
  obtain ⟨d1, d2, d3, d4⟩ := densityStep_pop
    (((({ s with frame_count := s.frame_count + 1 } : WindSim).update_wind_pattern M
        g).1.generate_particles M
      (({ s with frame_count := s.frame_count + 1 } : WindSim).update_wind_pattern M
        g).2).1.advanceParticlesStep M
    ((({ s with frame_count := s.frame_count + 1 } : WindSim).update_wind_pattern M
        g).1.generate_particles M
      (({ s with frame_count := s.frame_count + 1 } : WindSim).update_wind_pattern M
        g).2).2).1
  refine ⟨?_, ?_, ?_⟩
  · rw [target_count_congr d2 d3 d4, d1, advanceParticlesStep_eq]
    show ((updateParticles M _ _ _ _).1.length : ℤ) ≤
      max ({ (((({ s with frame_count := s.frame_count + 1 } : WindSim).update_wind_pattern M
          g).1.generate_particles M
        (({ s with frame_count := s.frame_count + 1 } : WindSim).update_wind_pattern M
          g).2).1 : WindSim) with particles :=
          (updateParticles M _ _ _ _).1 } : WindSim).target_count 0
    rw [updateParticles_length]
    have htc : ({ (((({ s with frame_count := s.frame_count + 1 } : WindSim).update_wind_pattern M
          g).1.generate_particles M
        (({ s with frame_count := s.frame_count + 1 } : WindSim).update_wind_pattern M
          g).2).1 : WindSim) with particles :=
          (updateParticles M
            ((({ s with frame_count := s.frame_count + 1 } : WindSim).update_wind_pattern M
              g).1.generate_particles M
            (({ s with frame_count := s.frame_count + 1 } : WindSim).update_wind_pattern M
              g).2).1.wind_strength
            (((((({ s with frame_count := s.frame_count + 1 } : WindSim)).update_wind_pattern M
              g).1.generate_particles M
            (({ s with frame_count := s.frame_count + 1 } : WindSim).update_wind_pattern M
              g).2).1.wind_direction : ℚ))
            ((({ s with frame_count := s.frame_count + 1 } : WindSim).update_wind_pattern M
              g).1.generate_particles M
            (({ s with frame_count := s.frame_count + 1 } : WindSim).update_wind_pattern M
              g).2).1.particles
            ((({ s with frame_count := s.frame_count + 1 } : WindSim).update_wind_pattern M
              g).1.generate_particles M
            (({ s with frame_count := s.frame_count + 1 } : WindSim).update_wind_pattern M
              g).2).2).1 } : WindSim).target_count =
        s.target_count := by
      refine target_count_congr ?_ ?_ ?_ <;> rw [hgen]
      · show (({ s with frame_count := s.frame_count + 1 } : WindSim).update_wind_pattern M g).1.rows = s.rows
        rw [w2]
      · show (({ s with frame_count := s.frame_count + 1 } : WindSim).update_wind_pattern M g).1.cols = s.cols
        rw [w3]
      · show (({ s with frame_count := s.frame_count + 1 } : WindSim).update_wind_pattern M g).1.high_density = s.high_density
        rw [w4]
    rw [htc, hgen]
    show ((((({ s with frame_count := s.frame_count + 1 } : WindSim).update_wind_pattern M
        g).1.particles ++ tail).length : ℤ)) ≤ max s.target_count 0
    rw [List.length_append, w1]
    have hper : (({ s with frame_count := s.frame_count + 1 } : WindSim).particles) = s.particles := rfl
    rw [hper]
    have htc2 : (({ s with frame_count := s.frame_count + 1 } : WindSim).update_wind_pattern M g).1.target_count = s.target_count := by
      refine target_count_congr ?_ ?_ ?_
      · rw [w2]
      · rw [w3]
      · rw [w4]
    rw [htc2, w1, hper] at hlenT
    push_cast
    omega
  · rw [d2, advanceParticlesStep_eq]
    show ((((({ s with frame_count := s.frame_count + 1 } : WindSim)).update_wind_pattern M
        g).1.generate_particles M
      ((({ s with frame_count := s.frame_count + 1 } : WindSim)).update_wind_pattern M
        g).2).1.rows) ≥ 0
    rw [hgen]
    show (({ s with frame_count := s.frame_count + 1 } : WindSim).update_wind_pattern M g).1.rows ≥ 0
    rw [w2]
    exact hrow
  · rw [d3, advanceParticlesStep_eq]
    show ((((({ s with frame_count := s.frame_count + 1 } : WindSim)).update_wind_pattern M
        g).1.generate_particles M
      ((({ s with frame_count := s.frame_count + 1 } : WindSim)).update_wind_pattern M
        g).2).1.cols) ≥ 0
    rw [hgen]
    show (({ s with frame_count := s.frame_count + 1 } : WindSim).update_wind_pattern M g).1.cols ≥ 0
    rw [w3]
    exact hcol



lemma countInv_handleEvent (s : WindSim) (e : Option Event)
    (hs : countInv s) (he : eventWF e = true) : countInv (handleEvent s e) := by
  obtain ⟨hlen, hrow, hcol⟩ := hs
  match e with
  | none => exact ⟨hlen, hrow, hcol⟩
  | some .toggleDensityView =>
    unfold handleEvent
    dsimp only
    split_ifs <;> exact ⟨hlen, hrow, hcol⟩
  | some .toggleDensityLevel =>
    refine ⟨?_, hrow, hcol⟩
    show ((([] : List WindParticle)).length : ℤ) ≤ max _ 0
    simp
  | some .increaseWind => exact ⟨hlen, hrow, hcol⟩
  | some .decreaseWind => exact ⟨hlen, hrow, hcol⟩
  | some .dirRight => exact ⟨hlen, hrow, hcol⟩
  | some .dirLeft => exact ⟨hlen, hrow, hcol⟩
  | some (.resize r c) =>
    simp only [eventWF, Bool.and_eq_true, decide_eq_true_eq] at he
    refine ⟨?_, he.1, he.2⟩
    show ((([] : List WindParticle)).length : ℤ) ≤ max _ 0
    simp

lemma countInv_runEvents (M : MathModel) :
    ∀ (es : List (Option Event)) (s : WindSim) (g : RNG),
      countInv s → (∀ e ∈ es, eventWF e = true) →
      countInv (runEvents M s es g).1 := by
  intro es
  induction es with
  | nil => exact fun s g hs _ => hs
  | cons e es ih =>
    intro s g hs hes
    show countInv (runEvents M (loopIter M s e g).1 es (loopIter M s e g).2).1
    exact ih _ _
      (countInv_update _ M _
        (countInv_handleEvent s e hs (hes e (List.mem_cons_self e es))))
      (fun e' he' => hes e' (List.mem_cons_of_mem e he'))

end Lemmas

section WitnessData

/-- A concrete random source whose draws are all 0. -/
def gZero : RNG := ⟨fun _ => 0, 0⟩

lemma gZero_unit : UnitStream gZero :=
  fun _ => ⟨le_refl 0, show (0 : ℚ) < 1 by norm_num⟩

/-- A concrete math model for witnesses: sin and cos identically 0. -/
def Mzero : MathModel := ⟨fun _ => 0, fun _ => 0, 0⟩

/-- A concrete math model whose sin is the identity, to distinguish wave
phases at different ages. -/
def Mid : MathModel := ⟨fun q => q, fun _ => 0, 0⟩

/-- A concrete particle on a 100 x 100 grid, placed mid-grid. -/
def pEx : WindParticle :=
  ⟨50, 50, 100, 100, 1, 0, 1, 1, 0, 50, 100, 0, 0, 0, false, 1, 1⟩

/-- A concrete particle that ends its tick at y = 9.5 on a 10-row
grid, between rows - 1 and rows, with no reset and no clamp. -/
def pC3 : WindParticle :=
  ⟨50, 19/2, 10, 100, 1, 0, 1, 1, 0, 50, 100, 0, 0, 0, false, 1, 1⟩

/-- A concrete particle whose tick triggers both the vertical bounce
(y = 20 on a 10-row grid) and the lifetime expiry (lifetime 0.01 below
the incremented age). -/
def pC7 : WindParticle :=
  ⟨50, 20, 10, 100, 1, 0, 1, 1, 0, 50, 1/100, 0, 0, 0, false, 1, 1⟩

/-- A random source for the C1 counterexample: the first three draws are
0 (triggering a gust with the minimal strength and duration samples),
every later draw is 7/9. -/
def gC1 : RNG := ⟨fun n => if n ≤ 2 then 0 else 7/9, 0⟩

/-- The C1 counterexample initial simulation state: high-density mode,
no gust, on a 5 x 10 grid, no particles. -/
def sC1code : WindSim :=
  ⟨false, true, 1, 1, 1, 0, 0, false, 0, [], 5, 10, 0, []⟩

/-- The C1 counterexample initial state of the claim-modelled machine:
the same wind fields as sC1code. -/
def sC1claim : WindStateC1 := ⟨true, 1, 1, 1, 0, 0, false, 0, 0⟩

/-- A concrete simulation state holding one particle far outside its
3 x 3 grid, for the C9 witness. -/
def sC9 : WindSim :=
  ⟨false, true, 1, 1, 1, 0, 0, false, 0,
    [⟨(-5), (-5), 3, 3, 1, 0, 1, 1, 0, 0, 5, 0, 0, 0, false, 1, 1⟩],
    3, 3, 0, []⟩

/-- An empty concrete screen. -/
def scrEmpty : Screen := fun _ => none

end WitnessData

/-- C6: on every tick update_wind_pattern sets base_wind_strength to
max(0.5, 1.2 + 0.4 sin(0.8 timer) + 0.2 cos(0.3 timer)) for the
accumulated variation timer, and at the end of the tick the wind
strength equals the base strength exactly when no gust is active, and
strictly exceeds it while a gust is active.  The hypotheses hold of
every reachable state, the initial state included: gust_timer is 0 at
__init__ and only accumulates from 0, and gust_active → 0 <
gust_strength holds at __init__ (where the gust is inactive and the
strength is 0) and is preserved because activation samples the strength
from [2.5, 5]. -/
theorem C6_base_strength_and_gust (s : WindSim) (M : MathModel) (g : RNG)
    (hg : UnitStream g) (ht : 0 ≤ s.gust_timer)
    (hgs : s.gust_active = true → 0 < s.gust_strength) :
    ((s.update_wind_pattern M g).1.wind_variation_timer =
      s.wind_variation_timer + UPDATE_INTERVAL) ∧
    ((s.update_wind_pattern M g).1.base_wind_strength =
      max (1/2) (6/5 +
        (2/5) * M.sin ((4/5) * (s.wind_variation_timer + UPDATE_INTERVAL)) +
        (1/5) * M.cos ((3/10) * (s.wind_variation_timer + UPDATE_INTERVAL)))) ∧
    ((s.update_wind_pattern M g).1.gust_active = false →
      (s.update_wind_pattern M g).1.wind_strength =
        (s.update_wind_pattern M g).1.base_wind_strength) ∧
    ((s.update_wind_pattern M g).1.gust_active = true →
      (s.update_wind_pattern M g).1.base_wind_strength <
        (s.update_wind_pattern M g).1.wind_strength) := by
  rw [update_wind_pattern_stages]
  obtain ⟨t1, t2, t3, t4⟩ :=
    gustTriggerStage_props (s.windVariationStage M) g hg ht hgs
  have hg2 : UnitStream ((s.windVariationStage M).gustTriggerStage g).2 :=
    unitStream_congr (gustTriggerStage_stream _ _) hg
  obtain ⟨e1, e2, e3, e4⟩ := gustEnvelopeStage_props _ _ hg2 t3 t4
  obtain ⟨d1, d2, d3, d4⟩ := directionStage_fields _ _
  refine ⟨?_, ?_, ?_, ?_⟩
  · rw [d2, e2, t2]
    rfl
  · rw [d1, e1, t1]
    rw [show (s.windVariationStage M).base_wind_strength =
      max (1/2) (6/5 + M.sin ((s.wind_variation_timer + UPDATE_INTERVAL) * (4/5)) * (2/5)
        + M.cos ((s.wind_variation_timer + UPDATE_INTERVAL) * (3/10)) * (1/5)) from rfl]
    congr 1
    ring_nf
  · intro hf
    rw [d4] at hf
    rw [d3, d1, e3 hf, e1]
  · intro hf
    rw [d4] at hf
    rw [d3, d1, e1]
    exact e4 hf

/-- Witness for C6 at the true initial state of the simulator, where
the gust is inactive, its timer is 0 and its strength is 0, so the
conditional hypothesis holds vacuously. -/
theorem C6_base_strength_and_gust_witness :
    UnitStream gZero ∧
    (0:ℚ) ≤ (WindSim.mkInitial false true 5 10).gust_timer ∧
    ((WindSim.mkInitial false true 5 10).gust_active = true →
      (0:ℚ) < (WindSim.mkInitial false true 5 10).gust_strength) ∧
    (((WindSim.mkInitial false true 5 10).update_wind_pattern
        Mzero gZero).1.wind_variation_timer =
      (WindSim.mkInitial false true 5 10).wind_variation_timer +
        UPDATE_INTERVAL) ∧
    (((WindSim.mkInitial false true 5 10).update_wind_pattern
        Mzero gZero).1.base_wind_strength =
      max (1/2) (6/5 +
        (2/5) * Mzero.sin ((4/5) * ((WindSim.mkInitial false true
          5 10).wind_variation_timer + UPDATE_INTERVAL)) +
        (1/5) * Mzero.cos ((3/10) * ((WindSim.mkInitial false true
          5 10).wind_variation_timer + UPDATE_INTERVAL)))) ∧
    (((WindSim.mkInitial false true 5 10).update_wind_pattern
        Mzero gZero).1.gust_active = false →
      ((WindSim.mkInitial false true 5 10).update_wind_pattern
          Mzero gZero).1.wind_strength =
        ((WindSim.mkInitial false true 5 10).update_wind_pattern
          Mzero gZero).1.base_wind_strength) ∧
    (((WindSim.mkInitial false true 5 10).update_wind_pattern
        Mzero gZero).1.gust_active = true →
      ((WindSim.mkInitial false true 5 10).update_wind_pattern
          Mzero gZero).1.base_wind_strength <
        ((WindSim.mkInitial false true 5 10).update_wind_pattern
          Mzero gZero).1.wind_strength) :=
  ⟨gZero_unit, by norm_num [WindSim.mkInitial],
    by simp [WindSim.mkInitial],
    C6_base_strength_and_gust (WindSim.mkInitial false true 5 10)
      Mzero gZero gZero_unit (by norm_num [WindSim.mkInitial])
      (by simp [WindSim.mkInitial])⟩

/-- C4: every reset() leaves the particle with age = 0 and freshly
sampled lifetime in [2,6], speed in [0.5,1.5], amplitude in [0.8,3.0] and
frequency in [0.2,0.5]; and the result of reset is a function of the
random source and the grid bounds alone (besides the carried original_x
and density_mode fields), so no sampled field of the pre-reset particle
survives into the post-reset particle. -/
theorem C4_reset_fresh_fields (p q : WindParticle) (M : MathModel) (g : RNG)
    (hg : UnitStream g) (hr : q.max_rows = p.max_rows)
    (hc : q.max_cols = p.max_cols) :
    ((p.reset M g).1.age = 0 ∧
      2 ≤ (p.reset M g).1.lifetime ∧ (p.reset M g).1.lifetime ≤ 6 ∧
      1/2 ≤ (p.reset M g).1.speed ∧ (p.reset M g).1.speed ≤ 3/2 ∧
      4/5 ≤ (p.reset M g).1.amplitude ∧ (p.reset M g).1.amplitude ≤ 3 ∧
      1/5 ≤ (p.reset M g).1.frequency ∧ (p.reset M g).1.frequency ≤ 1/2) ∧
    (q.reset M g).1 = { (p.reset M g).1 with
      original_x := q.original_x, density_mode := q.density_mode,
      max_rows := q.max_rows, max_cols := q.max_cols } := by
  constructor
  · simp only [WindParticle.reset, uniform, RNG.next, choiceIdx, randint]
    split_ifs with h
    · refine ⟨trivial, ?_, ?_, ?_, ?_, ?_, ?_, ?_, ?_⟩ <;>
      · first
        | (have h0 := (hg (g.pos + 7)).1
           have h1 := (hg (g.pos + 7)).2
           have h2 := (hg (g.pos + 2)).1
           have h3 := (hg (g.pos + 2)).2
           have h4 := (hg (g.pos + 4)).1
           have h5 := (hg (g.pos + 4)).2
           have h6 := (hg (g.pos + 5)).1
           have h7 := (hg (g.pos + 5)).2
           nlinarith)
    · refine ⟨trivial, ?_, ?_, ?_, ?_, ?_, ?_, ?_, ?_⟩ <;>
      · first
        | (have h0 := (hg (g.pos + 8)).1
           have h1 := (hg (g.pos + 8)).2
           have h2 := (hg (g.pos + 3)).1
           have h3 := (hg (g.pos + 3)).2
           have h4 := (hg (g.pos + 5)).1
           have h5 := (hg (g.pos + 5)).2
           have h6 := (hg (g.pos + 6)).1
           have h7 := (hg (g.pos + 6)).2
           nlinarith)
  · simp only [WindParticle.reset, uniform, RNG.next, choiceIdx, randint]
    split_ifs with h <;>
      simp [WindParticle.mk.injEq, hr, hc]

/-- One run receives, at a position where the other run has no pending
key, an increase or decrease wind-strength key; everywhere else the two
runs receive the same input. -/
def windKeyVariant (a b : Option Event) : Prop :=
  a = b ∨ (a = none ∧ (b = some .increaseWind ∨ b = some .decreaseWind))

instance windKeyVariantDec : ∀ a b, Decidable (windKeyVariant a b) :=
  fun a b => by unfold windKeyVariant; infer_instance

/-- Pointwise windKeyVariant over two runs of the same length. -/
def windKeyVariantList : List (Option Event) → List (Option Event) → Prop
  | [], [] => True
  | a :: as, b :: bs => windKeyVariant a b ∧ windKeyVariantList as bs
  | _, _ => False

instance windKeyVariantListDec :
    ∀ l1 l2, Decidable (windKeyVariantList l1 l2)
  | [], [] => isTrue trivial
  | [], _ :: _ => isFalse fun h => h
  | _ :: _, [] => isFalse fun h => h
  | a :: as, b :: bs =>
    haveI := windKeyVariantListDec as bs
    inferInstanceAs (Decidable (windKeyVariant a b ∧ windKeyVariantList as bs))

lemma update_wind_pattern_base_irrel (s : WindSim) (b : ℚ) (M : MathModel)
    (g : RNG) :
    WindSim.update_wind_pattern { s with base_wind_strength := b } M g =
      WindSim.update_wind_pattern s M g := by
  cases s
  rfl

lemma update_base_irrel (s : WindSim) (b : ℚ) (M : MathModel) (g : RNG) :
    WindSim.update { s with base_wind_strength := b } M g =
      WindSim.update s M g := by
  cases s
  rfl

lemma loopIter_variant (M : MathModel) (s : WindSim) (a b : Option Event)
    (g : RNG) (h : windKeyVariant a b) :
    loopIter M s a g = loopIter M s b g := by
  rcases h with h | ⟨ha, hb⟩
  · rw [h]
  · subst ha
    rcases hb with hb | hb <;> subst hb
    · exact
        (update_base_irrel s (min 8 (s.base_wind_strength + 3/10)) M g).symm
    · exact
        (update_base_irrel s (max (1/10) (s.base_wind_strength - 3/10)) M g).symm

/-- C10: two runs with the same random draws and inputs, except that one
additionally receives increase or decrease wind-strength keys, evolve to
the same simulation state (hence the same wind strength is used to
advance the particles on every tick): update_wind_pattern reassigns
base_wind_strength from the variation timer alone before any read, so
the key adjustments never reach the observable wind strength. -/
theorem C10_wind_keys_no_influence (M : MathModel) (s : WindSim)
    (es1 es2 : List (Option Event)) (g : RNG)
    (h : windKeyVariantList es1 es2) :
    runEvents M s es1 g = runEvents M s es2 g ∧
    ∀ (t : WindSim) (b : ℚ) (g' : RNG),
      WindSim.update_wind_pattern { t with base_wind_strength := b } M g' =
        WindSim.update_wind_pattern t M g' := by
  refine ⟨?_, fun t b g' => update_wind_pattern_base_irrel t b M g'⟩
  induction es1 generalizing es2 s g with
  | nil =>
    cases es2 with
    | nil => rfl
    | cons b bs => exact absurd h fun hf => hf
  | cons a as ih =>
    cases es2 with
    | nil => exact absurd h fun hf => hf
    | cons b bs =>
      obtain ⟨hab, hrest⟩ := h
      simp only [runEvents]
      rw [loopIter_variant M s a b g hab]
      exact ih _ _ _ hrest

/-- Witness for C10: a run that presses the increase-wind key on its
first iteration ends in the same state as a run that presses nothing. -/
theorem C10_wind_keys_no_influence_witness :
    windKeyVariantList [none, none] [some .increaseWind, none] ∧
    (runEvents Mzero (WindSim.mkInitial false true 5 10) [none, none] gZero =
        runEvents Mzero (WindSim.mkInitial false true 5 10)
          [some .increaseWind, none] gZero ∧
      ∀ (t : WindSim) (b : ℚ) (g' : RNG),
        WindSim.update_wind_pattern { t with base_wind_strength := b } Mzero g' =
          WindSim.update_wind_pattern t Mzero g') :=
  ⟨by decide,
    C10_wind_keys_no_influence Mzero (WindSim.mkInitial false true 5 10)
      [none, none] [some .increaseWind, none] gZero (by decide)⟩

/-- Witness for C4 at a concrete particle, math model and random
source. -/
theorem C4_reset_fresh_fields_witness :
    UnitStream gZero ∧
    (((pEx.reset Mzero gZero).1.age = 0 ∧
      2 ≤ (pEx.reset Mzero gZero).1.lifetime ∧
      (pEx.reset Mzero gZero).1.lifetime ≤ 6 ∧
      1/2 ≤ (pEx.reset Mzero gZero).1.speed ∧
      (pEx.reset Mzero gZero).1.speed ≤ 3/2 ∧
      4/5 ≤ (pEx.reset Mzero gZero).1.amplitude ∧
      (pEx.reset Mzero gZero).1.amplitude ≤ 3 ∧
      1/5 ≤ (pEx.reset Mzero gZero).1.frequency ∧
      (pEx.reset Mzero gZero).1.frequency ≤ 1/2) ∧
    (pEx.reset Mzero gZero).1 = { (pEx.reset Mzero gZero).1 with
      original_x := pEx.original_x, density_mode := pEx.density_mode,
      max_rows := pEx.max_rows, max_cols := pEx.max_cols }) :=
  ⟨gZero_unit, C4_reset_fresh_fields pEx pEx Mzero gZero gZero_unit rfl rfl⟩

/-- C3 (amended): after a particle update in which no reset occurred
(the post-move x lies inside [0, cols) and the incremented age is below
the lifetime), the position satisfies 0 <= y < rows and 0 <= x < cols
(so the truncated integer cell is within the grid); a horizontal exit
always forces a reset (leaving age = 0 and an in-grid position); a
vertical exit is clamped to the nearest edge (rows - 1 below, 0 above)
with pi added to the phase.  The claim as frozen states the float bound
y <= rows - 1, which fails (see the counterexample); the code only
guarantees y < rows when no clamp fires. -/
theorem C3_positions_after_update (p : WindParticle) (M : MathModel) (ws dir : ℚ) (g : RNG)
    (hg : UnitStream g) (hrows : 1 ≤ p.max_rows) (hcols : 1 ≤ p.max_cols) :
    ((0 ≤ (p.moveStage M ws dir).x ∧ (p.moveStage M ws dir).x < (p.max_cols : ℚ)) →
      (p.moveStage M ws dir).age < p.lifetime →
      (0 ≤ (p.update M ws dir g).1.y ∧ (p.update M ws dir g).1.y < (p.max_rows : ℚ) ∧
       0 ≤ (p.update M ws dir g).1.x ∧ (p.update M ws dir g).1.x < (p.max_cols : ℚ) ∧
       ((p.max_rows : ℚ) ≤ (p.moveStage M ws dir).y →
         (p.update M ws dir g).1.y = (p.max_rows : ℚ) - 1 ∧
         (p.update M ws dir g).1.phase = p.phase + M.pi) ∧
       ((p.moveStage M ws dir).y < 0 →
         (p.update M ws dir g).1.y = 0 ∧
         (p.update M ws dir g).1.phase = p.phase + M.pi))) ∧
    (((p.max_cols : ℚ) ≤ (p.moveStage M ws dir).x ∨ (p.moveStage M ws dir).x < 0) →
      ((p.update M ws dir g).1.age = 0 ∧
       0 ≤ (p.update M ws dir g).1.y ∧ (p.update M ws dir g).1.y < (p.max_rows : ℚ) ∧
       0 ≤ (p.update M ws dir g).1.x ∧ (p.update M ws dir g).1.x < (p.max_cols : ℚ))) := by
  have hupd : p.update M ws dir g =
      (((p.moveStage M ws dir).horizStage M g).1.vertStage M).lifetimeStage M
        ((p.moveStage M ws dir).horizStage M g).2 := rfl
  have hrq : (1:ℚ) ≤ (p.max_rows : ℚ) := by exact_mod_cast hrows
  have hcq : (1:ℚ) ≤ (p.max_cols : ℚ) := by exact_mod_cast hcols
  constructor
  · rintro ⟨hx0, hx1⟩ hage
    have hh : (p.moveStage M ws dir).horizStage M g = (p.moveStage M ws dir, g) := by
      unfold WindParticle.horizStage
      simp only [moveStage_max_cols]
      rw [if_neg]
      push_neg
      exact ⟨hx1, hx0⟩
    rw [hupd, hh]
    dsimp only
    rcases le_or_lt (p.max_rows : ℚ) (p.moveStage M ws dir).y with hy | hy
    · have hvert : (p.moveStage M ws dir).vertStage M =
          { p.moveStage M ws dir with
            y := ((p.moveStage M ws dir).max_rows : ℚ) - 1,
            phase := (p.moveStage M ws dir).phase + M.pi } := by
        unfold WindParticle.vertStage
        simp only [moveStage_max_rows]
        rw [if_pos hy]
      rw [hvert]
      have hlt : ({ p.moveStage M ws dir with
          y := ((p.moveStage M ws dir).max_rows : ℚ) - 1,
          phase := (p.moveStage M ws dir).phase + M.pi }).lifetimeStage M g =
          ({ p.moveStage M ws dir with
            y := ((p.moveStage M ws dir).max_rows : ℚ) - 1,
            phase := (p.moveStage M ws dir).phase + M.pi }, g) := by
        unfold WindParticle.lifetimeStage
        simp only [moveStage_lifetime, moveStage_age]
        rw [if_neg]
        simp only [moveStage_age] at hage
        exact not_le.mpr hage
      rw [hlt]
      refine ⟨?_, ?_, hx0, hx1, fun _ => ⟨?_, ?_⟩,
        fun hcon => absurd hcon (not_lt.mpr (by linarith))⟩
      · show (0:ℚ) ≤ ((p.moveStage M ws dir).max_rows : ℚ) - 1
        simp only [moveStage_max_rows]
        linarith
      · show ((p.moveStage M ws dir).max_rows : ℚ) - 1 < (p.max_rows : ℚ)
        simp only [moveStage_max_rows]
        linarith
      · show ((p.moveStage M ws dir).max_rows : ℚ) - 1 = (p.max_rows : ℚ) - 1
        simp only [moveStage_max_rows]
      · show (p.moveStage M ws dir).phase + M.pi = p.phase + M.pi
        simp only [moveStage_phase]
    · rcases lt_or_le (p.moveStage M ws dir).y 0 with hy0 | hy0
      · have hvert : (p.moveStage M ws dir).vertStage M =
            { p.moveStage M ws dir with
              y := 0, phase := (p.moveStage M ws dir).phase + M.pi } := by
          unfold WindParticle.vertStage
          simp only [moveStage_max_rows]
          rw [if_neg (not_le.mpr hy), if_pos hy0]
        rw [hvert]
        have hlt : ({ p.moveStage M ws dir with
            y := (0:ℚ), phase := (p.moveStage M ws dir).phase + M.pi }).lifetimeStage M g =
            ({ p.moveStage M ws dir with
              y := (0:ℚ), phase := (p.moveStage M ws dir).phase + M.pi }, g) := by
          unfold WindParticle.lifetimeStage
          simp only [moveStage_lifetime, moveStage_age]
          rw [if_neg]
          simp only [moveStage_age] at hage
          exact not_le.mpr hage
        rw [hlt]
        refine ⟨le_refl 0, by show (0:ℚ) < (p.max_rows : ℚ); linarith, hx0, hx1,
          fun hcon => absurd hcon (not_le.mpr hy), fun _ => ⟨rfl, ?_⟩⟩
        show (p.moveStage M ws dir).phase + M.pi = p.phase + M.pi
        simp only [moveStage_phase]
      · have hvert : (p.moveStage M ws dir).vertStage M = p.moveStage M ws dir := by
          unfold WindParticle.vertStage
          simp only [moveStage_max_rows]
          rw [if_neg (not_le.mpr hy), if_neg (not_lt.mpr hy0)]
        rw [hvert]
        have hlt : (p.moveStage M ws dir).lifetimeStage M g =
            (p.moveStage M ws dir, g) := by
          unfold WindParticle.lifetimeStage
          simp only [moveStage_lifetime, moveStage_age]
          rw [if_neg]
          simp only [moveStage_age] at hage
          exact not_le.mpr hage
        rw [hlt]
        exact ⟨hy0, hy, hx0, hx1,
          fun hcon => absurd hcon (not_le.mpr hy),
          fun hcon => absurd hcon (not_lt.mpr hy0)⟩
  · intro hex
    have hh : (p.moveStage M ws dir).horizStage M g =
        (p.moveStage M ws dir).reset M g := by
      unfold WindParticle.horizStage
      simp only [moveStage_max_cols]
      rw [if_pos hex]
    rw [hupd, hh]
    obtain ⟨r1, r2, r3, r4, r5, r6, r7, r8⟩ :=
      reset_props (p.moveStage M ws dir) M g hg hrows hcols
    simp only [moveStage_max_rows, moveStage_max_cols] at r2 r4 r7 r8
    have hcr : ((((p.moveStage M ws dir).reset M g).1.max_rows : ℤ) : ℚ) =
        (p.max_rows : ℚ) := by exact_mod_cast congrArg (fun z => (z : ℤ)) r7
    have hcc : ((((p.moveStage M ws dir).reset M g).1.max_cols : ℤ) : ℚ) =
        (p.max_cols : ℚ) := by exact_mod_cast congrArg (fun z => (z : ℤ)) r8
    have hvert : (((p.moveStage M ws dir).reset M g).1).vertStage M =
        ((p.moveStage M ws dir).reset M g).1 := by
      unfold WindParticle.vertStage
      rw [if_neg, if_neg]
      · exact not_lt.mpr r3
      · rw [hcr]
        intro hcon
        linarith
    rw [hvert]
    have hlt : (((p.moveStage M ws dir).reset M g).1).lifetimeStage M
        ((p.moveStage M ws dir).reset M g).2 =
        (((p.moveStage M ws dir).reset M g).1,
          ((p.moveStage M ws dir).reset M g).2) := by
      unfold WindParticle.lifetimeStage
      rw [if_neg]
      rw [r5]
      intro hcon
      linarith
    rw [hlt]
    exact ⟨r5, r3, by linarith, r1, by linarith⟩

/-- Witness for C3 at the concrete mid-grid particle pEx. -/
theorem C3_positions_after_update_witness :
    UnitStream gZero ∧ 1 ≤ pEx.max_rows ∧ 1 ≤ pEx.max_cols ∧
    (((0 ≤ (pEx.moveStage Mzero 0 0).x ∧
        (pEx.moveStage Mzero 0 0).x < (pEx.max_cols : ℚ)) →
      (pEx.moveStage Mzero 0 0).age < pEx.lifetime →
      (0 ≤ (pEx.update Mzero 0 0 gZero).1.y ∧
       (pEx.update Mzero 0 0 gZero).1.y < (pEx.max_rows : ℚ) ∧
       0 ≤ (pEx.update Mzero 0 0 gZero).1.x ∧
       (pEx.update Mzero 0 0 gZero).1.x < (pEx.max_cols : ℚ) ∧
       ((pEx.max_rows : ℚ) ≤ (pEx.moveStage Mzero 0 0).y →
         (pEx.update Mzero 0 0 gZero).1.y = (pEx.max_rows : ℚ) - 1 ∧
         (pEx.update Mzero 0 0 gZero).1.phase = pEx.phase + Mzero.pi) ∧
       ((pEx.moveStage Mzero 0 0).y < 0 →
         (pEx.update Mzero 0 0 gZero).1.y = 0 ∧
         (pEx.update Mzero 0 0 gZero).1.phase = pEx.phase + Mzero.pi))) ∧
    (((pEx.max_cols : ℚ) ≤ (pEx.moveStage Mzero 0 0).x ∨
        (pEx.moveStage Mzero 0 0).x < 0) →
      ((pEx.update Mzero 0 0 gZero).1.age = 0 ∧
       0 ≤ (pEx.update Mzero 0 0 gZero).1.y ∧
       (pEx.update Mzero 0 0 gZero).1.y < (pEx.max_rows : ℚ) ∧
       0 ≤ (pEx.update Mzero 0 0 gZero).1.x ∧
       (pEx.update Mzero 0 0 gZero).1.x < (pEx.max_cols : ℚ)))) :=
  ⟨gZero_unit, by norm_num [pEx], by norm_num [pEx],
    C3_positions_after_update pEx Mzero 0 0 gZero gZero_unit
      (by norm_num [pEx]) (by norm_num [pEx])⟩

/-- Counterexample to C3 as frozen: the particle pC3 finishes its tick
with no reset and no clamp at y = 9.5 on a 10-row grid, so the claimed
float bound y <= rows - 1 = 9 is violated (y < rows is what holds). -/
theorem C3_positions_counterexample :
    (0 ≤ (pC3.moveStage Mzero 0 0).x ∧
      (pC3.moveStage Mzero 0 0).x < (pC3.max_cols : ℚ)) ∧
    (pC3.moveStage Mzero 0 0).age < pC3.lifetime ∧
    (pC3.update Mzero 0 0 gZero).1.age ≠ 0 ∧
    ¬((pC3.update Mzero 0 0 gZero).1.y ≤ (pC3.max_rows : ℚ) - 1) := by
  norm_num [pC3, WindParticle.update, WindParticle.moveStage,
    WindParticle.horizStage, WindParticle.vertStage,
    WindParticle.lifetimeStage, WindParticle.reset, Mzero, gZero,
    UPDATE_INTERVAL, RNG.next, uniform, randint, choiceIdx]

/-- C7: within one particle update the checks run in the fixed order
horizontal exit, vertical clamp, lifetime expiry; when a vertical bounce
and the lifetime expiry both fire in one tick (no horizontal exit, an
out-of-range y and an expired lifetime), the final state is exactly the
lifetime reset applied after the clamp, and the reset discards the
bounce effect on the position: the sampled x, y are the same whether or
not the bounce happened, and age is 0. -/
theorem C7_last_check_wins (p : WindParticle) (M : MathModel) (ws dir : ℚ) (g : RNG)
    (hx : 0 ≤ (p.moveStage M ws dir).x ∧
      (p.moveStage M ws dir).x < (p.max_cols : ℚ))
    (hy : (p.max_rows : ℚ) ≤ (p.moveStage M ws dir).y ∨
      (p.moveStage M ws dir).y < 0)
    (hage : p.lifetime ≤ (p.moveStage M ws dir).age) :
    p.update M ws dir g = ((p.moveStage M ws dir).vertStage M).reset M g ∧
    (((p.moveStage M ws dir).vertStage M).reset M g).1.x =
      ((p.moveStage M ws dir).reset M g).1.x ∧
    (((p.moveStage M ws dir).vertStage M).reset M g).1.y =
      ((p.moveStage M ws dir).reset M g).1.y ∧
    (((p.moveStage M ws dir).vertStage M).reset M g).1.age = 0 := by
  have hupd : p.update M ws dir g =
      (((p.moveStage M ws dir).horizStage M g).1.vertStage M).lifetimeStage M
        ((p.moveStage M ws dir).horizStage M g).2 := rfl
  have hh : (p.moveStage M ws dir).horizStage M g = (p.moveStage M ws dir, g) := by
    unfold WindParticle.horizStage
    simp only [moveStage_max_cols]
    rw [if_neg]
    push_neg
    exact ⟨hx.2, hx.1⟩
  have hind := reset_indep (p.moveStage M ws dir)
    ((p.moveStage M ws dir).vertStage M) M g
    (vertStage_max_rows _ _) (vertStage_max_cols _ _)
  refine ⟨?_, ?_, ?_, reset_age _ _ _⟩
  · rw [hupd, hh]
    dsimp only
    unfold WindParticle.lifetimeStage
    rw [if_pos]
    rw [vertStage_lifetime, vertStage_age, moveStage_lifetime]
    exact hage
  · rw [hind]
  · rw [hind]

/-- Witness for C7 at the concrete particle pC7, whose bounce and
lifetime expiry fire in the same tick. -/
theorem C7_last_check_wins_witness :
    ((0 ≤ (pC7.moveStage Mzero 0 0).x ∧
      (pC7.moveStage Mzero 0 0).x < (pC7.max_cols : ℚ)) ∧
     ((pC7.max_rows : ℚ) ≤ (pC7.moveStage Mzero 0 0).y ∨
      (pC7.moveStage Mzero 0 0).y < 0) ∧
     pC7.lifetime ≤ (pC7.moveStage Mzero 0 0).age) ∧
    (pC7.update Mzero 0 0 gZero = ((pC7.moveStage Mzero 0 0).vertStage Mzero).reset Mzero gZero ∧
     (((pC7.moveStage Mzero 0 0).vertStage Mzero).reset Mzero gZero).1.x =
       ((pC7.moveStage Mzero 0 0).reset Mzero gZero).1.x ∧
     (((pC7.moveStage Mzero 0 0).vertStage Mzero).reset Mzero gZero).1.y =
       ((pC7.moveStage Mzero 0 0).reset Mzero gZero).1.y ∧
     (((pC7.moveStage Mzero 0 0).vertStage Mzero).reset Mzero gZero).1.age = 0) := by
  have h1 : 0 ≤ (pC7.moveStage Mzero 0 0).x ∧
      (pC7.moveStage Mzero 0 0).x < (pC7.max_cols : ℚ) := by
    norm_num [pC7, WindParticle.moveStage, Mzero, UPDATE_INTERVAL]
  have h2 : (pC7.max_rows : ℚ) ≤ (pC7.moveStage Mzero 0 0).y ∨
      (pC7.moveStage Mzero 0 0).y < 0 := by
    left
    norm_num [pC7, WindParticle.moveStage, Mzero, UPDATE_INTERVAL]
  have h3 : pC7.lifetime ≤ (pC7.moveStage Mzero 0 0).age := by
    norm_num [pC7, WindParticle.moveStage, Mzero, UPDATE_INTERVAL]
  exact ⟨⟨h1, h2, h3⟩, C7_last_check_wins pC7 Mzero 0 0 gZero h1 h2 h3⟩


/-- C5 (amended): the source increments age first, so the vertical wave
displacement of a tick is computed from the age value after that tick
age increment: on a tick with no reset and no clamp, the final y is the
initial y plus the wave formula evaluated at p.age + UPDATE_INTERVAL,
and the final age is p.age + UPDATE_INTERVAL.  The claim as frozen
(order x update, then y update from the pre-increment age, then
age += dt) fails; see the counterexample. -/
theorem C5_wave_uses_incremented_age (p : WindParticle) (M : MathModel)
    (ws dir : ℚ) (g : RNG)
    (hx : 0 ≤ (p.moveStage M ws dir).x ∧
      (p.moveStage M ws dir).x < (p.max_cols : ℚ))
    (hy : 0 ≤ (p.moveStage M ws dir).y ∧
      (p.moveStage M ws dir).y < (p.max_rows : ℚ))
    (hage : (p.moveStage M ws dir).age < p.lifetime) :
    (p.update M ws dir g).1.age = p.age + UPDATE_INTERVAL ∧
    (p.update M ws dir g).1.y = p.y +
      (M.sin ((p.age + UPDATE_INTERVAL) * p.frequency * 8 + p.phase) * p.amplitude +
       M.cos ((p.age + UPDATE_INTERVAL) * p.frequency * 4 + p.phase * 2) *
         p.amplitude * (3/10)) * (2/5) ∧
    (p.update M ws dir g).2 = g := by
  have hupd : p.update M ws dir g =
      (((p.moveStage M ws dir).horizStage M g).1.vertStage M).lifetimeStage M
        ((p.moveStage M ws dir).horizStage M g).2 := rfl
  have hh : (p.moveStage M ws dir).horizStage M g = (p.moveStage M ws dir, g) := by
    unfold WindParticle.horizStage
    simp only [moveStage_max_cols]
    rw [if_neg]
    push_neg
    exact ⟨hx.2, hx.1⟩
  have hvert : (p.moveStage M ws dir).vertStage M = p.moveStage M ws dir := by
    unfold WindParticle.vertStage
    simp only [moveStage_max_rows]
    rw [if_neg (not_le.mpr hy.2), if_neg (not_lt.mpr hy.1)]
  have hlt : (p.moveStage M ws dir).lifetimeStage M g =
      (p.moveStage M ws dir, g) := by
    unfold WindParticle.lifetimeStage
    simp only [moveStage_lifetime, moveStage_age]
    rw [if_neg]
    simp only [moveStage_age] at hage
    exact not_le.mpr hage
  rw [hupd, hh]
  dsimp only
  rw [hvert, hlt]
  exact ⟨rfl, rfl, rfl⟩

/-- Witness for C5 at the concrete particle pEx. -/
theorem C5_wave_uses_incremented_age_witness :
    ((0 ≤ (pEx.moveStage Mzero 0 0).x ∧
      (pEx.moveStage Mzero 0 0).x < (pEx.max_cols : ℚ)) ∧
     (0 ≤ (pEx.moveStage Mzero 0 0).y ∧
      (pEx.moveStage Mzero 0 0).y < (pEx.max_rows : ℚ)) ∧
     (pEx.moveStage Mzero 0 0).age < pEx.lifetime) ∧
    ((pEx.update Mzero 0 0 gZero).1.age = pEx.age + UPDATE_INTERVAL ∧
     (pEx.update Mzero 0 0 gZero).1.y = pEx.y +
      (Mzero.sin ((pEx.age + UPDATE_INTERVAL) * pEx.frequency * 8 + pEx.phase) * pEx.amplitude +
       Mzero.cos ((pEx.age + UPDATE_INTERVAL) * pEx.frequency * 4 + pEx.phase * 2) *
         pEx.amplitude * (3/10)) * (2/5) ∧
     (pEx.update Mzero 0 0 gZero).2 = gZero) := by
  have h1 : 0 ≤ (pEx.moveStage Mzero 0 0).x ∧
      (pEx.moveStage Mzero 0 0).x < (pEx.max_cols : ℚ) := by
    norm_num [pEx, WindParticle.moveStage, Mzero, UPDATE_INTERVAL]
  have h2 : 0 ≤ (pEx.moveStage Mzero 0 0).y ∧
      (pEx.moveStage Mzero 0 0).y < (pEx.max_rows : ℚ) := by
    norm_num [pEx, WindParticle.moveStage, Mzero, UPDATE_INTERVAL]
  have h3 : (pEx.moveStage Mzero 0 0).age < pEx.lifetime := by
    norm_num [pEx, WindParticle.moveStage, Mzero, UPDATE_INTERVAL]
  exact ⟨⟨h1, h2, h3⟩, C5_wave_uses_incremented_age pEx Mzero 0 0 gZero h1 h2 h3⟩

set_option maxHeartbeats 1000000 in
/-- Counterexample to C5 as frozen: with sin as the identity oracle, the
source tick moves pEx to y = 50 + 0.096 (wave at the incremented age
0.03) while the claimed order (wave at the pre-increment age 0) yields
y = 50; the two orders observably differ at this input. -/
theorem C5_order_counterexample :
    (pEx.update Mid 0 0 gZero).1.y = 50 + 12/125 ∧
    (updateParticleClaimC5 pEx Mid 0 0 gZero).1.y = 50 ∧
    (pEx.update Mid 0 0 gZero).1.y ≠ (updateParticleClaimC5 pEx Mid 0 0 gZero).1.y := by
  have h1 : (pEx.update Mid 0 0 gZero).1.y = 50 + 12/125 := by
    norm_num [pEx, Mid, gZero, UPDATE_INTERVAL, WindParticle.update,
      WindParticle.moveStage, WindParticle.horizStage, WindParticle.vertStage,
      WindParticle.lifetimeStage, WindParticle.reset,
      RNG.next, uniform, randint, choiceIdx]
  have h2 : (updateParticleClaimC5 pEx Mid 0 0 gZero).1.y = 50 := by
    norm_num [pEx, Mid, gZero, UPDATE_INTERVAL, updateParticleClaimC5,
      moveStageClaimC5, WindParticle.horizStage, WindParticle.vertStage,
      WindParticle.lifetimeStage, WindParticle.reset,
      RNG.next, uniform, randint, choiceIdx]
  refine ⟨h1, h2, ?_⟩
  rw [h1, h2]
  norm_num
/-- C1 (amended): the peak multiplier is sampled once, at activation,
from [2.5, 5.0] (concretely, one uniform draw consumed right after the
trigger draw) and is carried unchanged through every later tick of the
gust; the duration, however, is NOT sampled at activation: on every
tick while the gust is active a fresh duration is drawn from [0.3, 1.2],
and the gust deactivates, setting currentStrength back to baseStrength,
exactly when the elapsed time reaches or exceeds that tick freshly
drawn duration.  The claim as frozen (one duration sampled at
activation governing the whole gust) fails; see the counterexample. -/
theorem C1_gust_sampling_amended (s : WindSim) (M : MathModel) (g : RNG) (hg : UnitStream g) :
    (s.gust_active = false →
      g.stream g.pos < (if s.high_density then (1:ℚ)/100 else 1/200) →
      ((s.update_wind_pattern M g).1.gust_strength =
          5/2 + (5 - 5/2) * g.stream (g.pos + 1) ∧
        5/2 ≤ (s.update_wind_pattern M g).1.gust_strength ∧
        (s.update_wind_pattern M g).1.gust_strength ≤ 5 ∧
        (s.update_wind_pattern M g).1.gust_active = true ∧
        (s.update_wind_pattern M g).1.gust_timer = UPDATE_INTERVAL)) ∧
    (s.gust_active = true →
      (((3:ℚ)/10 ≤ 3/10 + (6/5 - 3/10) * g.stream g.pos ∧
        3/10 + (6/5 - 3/10) * g.stream g.pos ≤ 6/5) ∧
      (3/10 + (6/5 - 3/10) * g.stream g.pos ≤ s.gust_timer + UPDATE_INTERVAL →
        (s.update_wind_pattern M g).1.gust_active = false ∧
        (s.update_wind_pattern M g).1.wind_strength =
          (s.update_wind_pattern M g).1.base_wind_strength) ∧
      (s.gust_timer + UPDATE_INTERVAL < 3/10 + (6/5 - 3/10) * g.stream g.pos →
        (s.update_wind_pattern M g).1.gust_active = true ∧
        (s.update_wind_pattern M g).1.gust_strength = s.gust_strength))) := by
  constructor
  · intro hga hr
    rw [update_wind_pattern_stages]
    rw [gustTriggerStage_activate (s.windVariationStage M) g hga hr]
    dsimp only
    have hlt2 : ({ s.windVariationStage M with
          gust_active := true
          gust_timer := 0
          gust_strength := 5/2 + (5 - 5/2) * g.stream (g.pos + 1) } : WindSim).gust_timer +
          UPDATE_INTERVAL <
        3/10 + (6/5 - 3/10) * (RNG.mk g.stream (g.pos + 1 + 1)).stream
          (RNG.mk g.stream (g.pos + 1 + 1)).pos := by
      show (0:ℚ) + UPDATE_INTERVAL < 3/10 + (6/5 - 3/10) * g.stream (g.pos + 1 + 1)
      have h0 := (hg (g.pos + 1 + 1)).1
      simp only [UPDATE_INTERVAL]
      nlinarith
    obtain ⟨e1, e2, e3⟩ := gustEnvelopeStage_continue _ _ rfl hlt2
    obtain ⟨d1, d2, d3, d4⟩ := directionStage_fields _ _
    obtain ⟨d5, d6⟩ := directionStage_gust _ _
    have h1 := (hg (g.pos + 1)).1
    have h2 := (hg (g.pos + 1)).2
    refine ⟨?_, ?_, ?_, ?_, ?_⟩
    · rw [d5, e2]
    · rw [d5, e2]
      show (5:ℚ)/2 ≤ 5/2 + (5 - 5/2) * g.stream (g.pos + 1)
      nlinarith
    · rw [d5, e2]
      show (5:ℚ)/2 + (5 - 5/2) * g.stream (g.pos + 1) ≤ 5
      nlinarith
    · rw [d4, e1]
    · rw [d6, e3]
      show (0:ℚ) + UPDATE_INTERVAL = UPDATE_INTERVAL
      ring
  · intro hga
    have h0 := (hg g.pos).1
    have h1 := (hg g.pos).2
    refine ⟨⟨by nlinarith, by nlinarith⟩, ?_, ?_⟩
    · intro hge
      rw [update_wind_pattern_stages]
      rw [gustTriggerStage_skip (s.windVariationStage M) g hga]
      dsimp only
      obtain ⟨e1, e2, e3⟩ :=
        gustEnvelopeStage_expire (s.windVariationStage M) g hga hge
      obtain ⟨d1, d2, d3, d4⟩ := directionStage_fields _ _
      refine ⟨by rw [d4, e1], by rw [d3, d1, e2, e3]⟩
    · intro hlt
      rw [update_wind_pattern_stages]
      rw [gustTriggerStage_skip (s.windVariationStage M) g hga]
      dsimp only
      obtain ⟨e1, e2, e3⟩ :=
        gustEnvelopeStage_continue (s.windVariationStage M) g hga hlt
      obtain ⟨d1, d2, d3, d4⟩ := directionStage_fields _ _
      obtain ⟨d5, d6⟩ := directionStage_gust _ _
      refine ⟨by rw [d4, e1], ?_⟩
      rw [d5, e2]
      rfl

set_option maxHeartbeats 1000000 in
/-- Counterexample to C1 as frozen: over ten ticks from an inactive
state, with draws 0, 0, 0, 7/9, 7/9, ... shared by both machines, the
source activates a gust on tick 1 (its first duration draw, the one an
activation-time sample would be, is the minimal 0.3) and is still in
the gust at elapsed time 0.3 with wind_strength above base, because
each active tick drew a fresh duration of 1.0; the machine modelled
from the words of the claim, which stores the activation-time duration
0.3, has deactivated at elapsed 0.3 and reset its strength to base. -/
theorem C1_single_duration_counterexample :
    (iterWindPattern Mzero 10 sC1code gC1).1.gust_active = true ∧
    (iterWindPattern Mzero 10 sC1code gC1).1.gust_timer = 3/10 ∧
    (iterWindPattern Mzero 10 sC1code gC1).1.base_wind_strength <
      (iterWindPattern Mzero 10 sC1code gC1).1.wind_strength ∧
    (iterWindPatternClaimC1 Mzero 10 sC1claim gC1).1.gust_active = false ∧
    (iterWindPatternClaimC1 Mzero 10 sC1claim gC1).1.gust_timer = 3/10 ∧
    (iterWindPatternClaimC1 Mzero 10 sC1claim gC1).1.planned_duration = 3/10 ∧
    (iterWindPatternClaimC1 Mzero 10 sC1claim gC1).1.wind_strength =
      (iterWindPatternClaimC1 Mzero 10 sC1claim gC1).1.base_wind_strength := by
  have hc0 : WindSim.update_wind_pattern (⟨false, true, 1, 1, 1, 0, 0, false, 0, [], 5, 10, 0, []⟩ : WindSim) Mzero ⟨gC1.stream, 0⟩ =
      ((⟨false, true, 49/20, 1, 6/5, 3/100, 3/100, true, 5/2, [], 5, 10, 0, []⟩ : WindSim), ⟨gC1.stream, 4⟩) := by
    norm_num [WindSim.update_wind_pattern, WindSim.windVariationStage,
      WindSim.gustTriggerStage, WindSim.gustEnvelopeStage, WindSim.directionStage,
      Mzero, gC1, UPDATE_INTERVAL, RNG.next, uniform]
  have hc1 : WindSim.update_wind_pattern (⟨false, true, 49/20, 1, 6/5, 3/100, 3/100, true, 5/2, [], 5, 10, 0, []⟩ : WindSim) Mzero ⟨gC1.stream, 4⟩ =
      ((⟨false, true, 39/20, 1, 6/5, 3/50, 3/50, true, 5/2, [], 5, 10, 0, []⟩ : WindSim), ⟨gC1.stream, 6⟩) := by
    norm_num [WindSim.update_wind_pattern, WindSim.windVariationStage,
      WindSim.gustTriggerStage, WindSim.gustEnvelopeStage, WindSim.directionStage,
      Mzero, gC1, UPDATE_INTERVAL, RNG.next, uniform]
  have hc2 : WindSim.update_wind_pattern (⟨false, true, 39/20, 1, 6/5, 3/50, 3/50, true, 5/2, [], 5, 10, 0, []⟩ : WindSim) Mzero ⟨gC1.stream, 6⟩ =
      ((⟨false, true, 93/40, 1, 6/5, 9/100, 9/100, true, 5/2, [], 5, 10, 0, []⟩ : WindSim), ⟨gC1.stream, 8⟩) := by
    norm_num [WindSim.update_wind_pattern, WindSim.windVariationStage,
      WindSim.gustTriggerStage, WindSim.gustEnvelopeStage, WindSim.directionStage,
      Mzero, gC1, UPDATE_INTERVAL, RNG.next, uniform]
  have hc3 : WindSim.update_wind_pattern (⟨false, true, 93/40, 1, 6/5, 9/100, 9/100, true, 5/2, [], 5, 10, 0, []⟩ : WindSim) Mzero ⟨gC1.stream, 8⟩ =
      ((⟨false, true, 27/10, 1, 6/5, 3/25, 3/25, true, 5/2, [], 5, 10, 0, []⟩ : WindSim), ⟨gC1.stream, 10⟩) := by
    norm_num [WindSim.update_wind_pattern, WindSim.windVariationStage,
      WindSim.gustTriggerStage, WindSim.gustEnvelopeStage, WindSim.directionStage,
      Mzero, gC1, UPDATE_INTERVAL, RNG.next, uniform]
  have hc4 : WindSim.update_wind_pattern (⟨false, true, 27/10, 1, 6/5, 3/25, 3/25, true, 5/2, [], 5, 10, 0, []⟩ : WindSim) Mzero ⟨gC1.stream, 10⟩ =
      ((⟨false, true, 123/40, 1, 6/5, 3/20, 3/20, true, 5/2, [], 5, 10, 0, []⟩ : WindSim), ⟨gC1.stream, 12⟩) := by
    norm_num [WindSim.update_wind_pattern, WindSim.windVariationStage,
      WindSim.gustTriggerStage, WindSim.gustEnvelopeStage, WindSim.directionStage,
      Mzero, gC1, UPDATE_INTERVAL, RNG.next, uniform]
  have hc5 : WindSim.update_wind_pattern (⟨false, true, 123/40, 1, 6/5, 3/20, 3/20, true, 5/2, [], 5, 10, 0, []⟩ : WindSim) Mzero ⟨gC1.stream, 12⟩ =
      ((⟨false, true, 69/20, 1, 6/5, 9/50, 9/50, true, 5/2, [], 5, 10, 0, []⟩ : WindSim), ⟨gC1.stream, 14⟩) := by
    norm_num [WindSim.update_wind_pattern, WindSim.windVariationStage,
      WindSim.gustTriggerStage, WindSim.gustEnvelopeStage, WindSim.directionStage,
      Mzero, gC1, UPDATE_INTERVAL, RNG.next, uniform]
  have hc6 : WindSim.update_wind_pattern (⟨false, true, 69/20, 1, 6/5, 9/50, 9/50, true, 5/2, [], 5, 10, 0, []⟩ : WindSim) Mzero ⟨gC1.stream, 14⟩ =
      ((⟨false, true, 37/10, 1, 6/5, 21/100, 21/100, true, 5/2, [], 5, 10, 0, []⟩ : WindSim), ⟨gC1.stream, 16⟩) := by
    norm_num [WindSim.update_wind_pattern, WindSim.windVariationStage,
      WindSim.gustTriggerStage, WindSim.gustEnvelopeStage, WindSim.directionStage,
      Mzero, gC1, UPDATE_INTERVAL, RNG.next, uniform]
  have hc7 : WindSim.update_wind_pattern (⟨false, true, 37/10, 1, 6/5, 21/100, 21/100, true, 5/2, [], 5, 10, 0, []⟩ : WindSim) Mzero ⟨gC1.stream, 16⟩ =
      ((⟨false, true, 37/10, 1, 6/5, 6/25, 6/25, true, 5/2, [], 5, 10, 0, []⟩ : WindSim), ⟨gC1.stream, 18⟩) := by
    norm_num [WindSim.update_wind_pattern, WindSim.windVariationStage,
      WindSim.gustTriggerStage, WindSim.gustEnvelopeStage, WindSim.directionStage,
      Mzero, gC1, UPDATE_INTERVAL, RNG.next, uniform]
  have hc8 : WindSim.update_wind_pattern (⟨false, true, 37/10, 1, 6/5, 6/25, 6/25, true, 5/2, [], 5, 10, 0, []⟩ : WindSim) Mzero ⟨gC1.stream, 18⟩ =
      ((⟨false, true, 37/10, 1, 6/5, 27/100, 27/100, true, 5/2, [], 5, 10, 0, []⟩ : WindSim), ⟨gC1.stream, 20⟩) := by
    norm_num [WindSim.update_wind_pattern, WindSim.windVariationStage,
      WindSim.gustTriggerStage, WindSim.gustEnvelopeStage, WindSim.directionStage,
      Mzero, gC1, UPDATE_INTERVAL, RNG.next, uniform]
  have hc9 : WindSim.update_wind_pattern (⟨false, true, 37/10, 1, 6/5, 27/100, 27/100, true, 5/2, [], 5, 10, 0, []⟩ : WindSim) Mzero ⟨gC1.stream, 20⟩ =
      ((⟨false, true, 37/10, 1, 6/5, 3/10, 3/10, true, 5/2, [], 5, 10, 0, []⟩ : WindSim), ⟨gC1.stream, 22⟩) := by
    norm_num [WindSim.update_wind_pattern, WindSim.windVariationStage,
      WindSim.gustTriggerStage, WindSim.gustEnvelopeStage, WindSim.directionStage,
      Mzero, gC1, UPDATE_INTERVAL, RNG.next, uniform]
  have hs0 : updateWindPatternClaimC1 (⟨true, 1, 1, 1, 0, 0, false, 0, 0⟩ : WindStateC1) Mzero ⟨gC1.stream, 0⟩ =
      ((⟨true, 49/20, 1, 6/5, 3/100, 3/100, true, 5/2, 3/10⟩ : WindStateC1), ⟨gC1.stream, 4⟩) := by
    norm_num [updateWindPatternClaimC1, windVariationStageClaimC1,
      gustTriggerStageClaimC1, gustEnvelopeStageClaimC1, directionStageClaimC1,
      Mzero, gC1, UPDATE_INTERVAL, RNG.next, uniform]
  have hs1 : updateWindPatternClaimC1 (⟨true, 49/20, 1, 6/5, 3/100, 3/100, true, 5/2, 3/10⟩ : WindStateC1) Mzero ⟨gC1.stream, 4⟩ =
      ((⟨true, 37/10, 1, 6/5, 3/50, 3/50, true, 5/2, 3/10⟩ : WindStateC1), ⟨gC1.stream, 5⟩) := by
    norm_num [updateWindPatternClaimC1, windVariationStageClaimC1,
      gustTriggerStageClaimC1, gustEnvelopeStageClaimC1, directionStageClaimC1,
      Mzero, gC1, UPDATE_INTERVAL, RNG.next, uniform]
  have hs2 : updateWindPatternClaimC1 (⟨true, 37/10, 1, 6/5, 3/50, 3/50, true, 5/2, 3/10⟩ : WindStateC1) Mzero ⟨gC1.stream, 5⟩ =
      ((⟨true, 37/10, 1, 6/5, 9/100, 9/100, true, 5/2, 3/10⟩ : WindStateC1), ⟨gC1.stream, 6⟩) := by
    norm_num [updateWindPatternClaimC1, windVariationStageClaimC1,
      gustTriggerStageClaimC1, gustEnvelopeStageClaimC1, directionStageClaimC1,
      Mzero, gC1, UPDATE_INTERVAL, RNG.next, uniform]
  have hs3 : updateWindPatternClaimC1 (⟨true, 37/10, 1, 6/5, 9/100, 9/100, true, 5/2, 3/10⟩ : WindStateC1) Mzero ⟨gC1.stream, 6⟩ =
      ((⟨true, 37/10, 1, 6/5, 3/25, 3/25, true, 5/2, 3/10⟩ : WindStateC1), ⟨gC1.stream, 7⟩) := by
    norm_num [updateWindPatternClaimC1, windVariationStageClaimC1,
      gustTriggerStageClaimC1, gustEnvelopeStageClaimC1, directionStageClaimC1,
      Mzero, gC1, UPDATE_INTERVAL, RNG.next, uniform]
  have hs4 : updateWindPatternClaimC1 (⟨true, 37/10, 1, 6/5, 3/25, 3/25, true, 5/2, 3/10⟩ : WindStateC1) Mzero ⟨gC1.stream, 7⟩ =
      ((⟨true, 37/10, 1, 6/5, 3/20, 3/20, true, 5/2, 3/10⟩ : WindStateC1), ⟨gC1.stream, 8⟩) := by
    norm_num [updateWindPatternClaimC1, windVariationStageClaimC1,
      gustTriggerStageClaimC1, gustEnvelopeStageClaimC1, directionStageClaimC1,
      Mzero, gC1, UPDATE_INTERVAL, RNG.next, uniform]
  have hs5 : updateWindPatternClaimC1 (⟨true, 37/10, 1, 6/5, 3/20, 3/20, true, 5/2, 3/10⟩ : WindStateC1) Mzero ⟨gC1.stream, 8⟩ =
      ((⟨true, 37/10, 1, 6/5, 9/50, 9/50, true, 5/2, 3/10⟩ : WindStateC1), ⟨gC1.stream, 9⟩) := by
    norm_num [updateWindPatternClaimC1, windVariationStageClaimC1,
      gustTriggerStageClaimC1, gustEnvelopeStageClaimC1, directionStageClaimC1,
      Mzero, gC1, UPDATE_INTERVAL, RNG.next, uniform]
  have hs6 : updateWindPatternClaimC1 (⟨true, 37/10, 1, 6/5, 9/50, 9/50, true, 5/2, 3/10⟩ : WindStateC1) Mzero ⟨gC1.stream, 9⟩ =
      ((⟨true, 37/10, 1, 6/5, 21/100, 21/100, true, 5/2, 3/10⟩ : WindStateC1), ⟨gC1.stream, 10⟩) := by
    norm_num [updateWindPatternClaimC1, windVariationStageClaimC1,
      gustTriggerStageClaimC1, gustEnvelopeStageClaimC1, directionStageClaimC1,
      Mzero, gC1, UPDATE_INTERVAL, RNG.next, uniform]
  have hs7 : updateWindPatternClaimC1 (⟨true, 37/10, 1, 6/5, 21/100, 21/100, true, 5/2, 3/10⟩ : WindStateC1) Mzero ⟨gC1.stream, 10⟩ =
      ((⟨true, 37/10, 1, 6/5, 6/25, 6/25, true, 5/2, 3/10⟩ : WindStateC1), ⟨gC1.stream, 11⟩) := by
    norm_num [updateWindPatternClaimC1, windVariationStageClaimC1,
      gustTriggerStageClaimC1, gustEnvelopeStageClaimC1, directionStageClaimC1,
      Mzero, gC1, UPDATE_INTERVAL, RNG.next, uniform]
  have hs8 : updateWindPatternClaimC1 (⟨true, 37/10, 1, 6/5, 6/25, 6/25, true, 5/2, 3/10⟩ : WindStateC1) Mzero ⟨gC1.stream, 11⟩ =
      ((⟨true, 49/20, 1, 6/5, 27/100, 27/100, true, 5/2, 3/10⟩ : WindStateC1), ⟨gC1.stream, 12⟩) := by
    norm_num [updateWindPatternClaimC1, windVariationStageClaimC1,
      gustTriggerStageClaimC1, gustEnvelopeStageClaimC1, directionStageClaimC1,
      Mzero, gC1, UPDATE_INTERVAL, RNG.next, uniform]
  have hs9 : updateWindPatternClaimC1 (⟨true, 49/20, 1, 6/5, 27/100, 27/100, true, 5/2, 3/10⟩ : WindStateC1) Mzero ⟨gC1.stream, 12⟩ =
      ((⟨true, 6/5, 1, 6/5, 3/10, 3/10, false, 5/2, 3/10⟩ : WindStateC1), ⟨gC1.stream, 13⟩) := by
    norm_num [updateWindPatternClaimC1, windVariationStageClaimC1,
      gustTriggerStageClaimC1, gustEnvelopeStageClaimC1, directionStageClaimC1,
      Mzero, gC1, UPDATE_INTERVAL, RNG.next, uniform]
  have hcode : iterWindPattern Mzero 10 sC1code gC1 =
      ((⟨false, true, 37/10, 1, 6/5, 3/10, 3/10, true, 5/2, [], 5, 10, 0, []⟩ : WindSim), (⟨gC1.stream, 22⟩ : RNG)) := by
    calc iterWindPattern Mzero 10 sC1code gC1
        = iterWindPattern Mzero 9 (⟨false, true, 49/20, 1, 6/5, 3/100, 3/100, true, 5/2, [], 5, 10, 0, []⟩ : WindSim) (⟨gC1.stream, 4⟩ : RNG) := by
          rw [show sC1code = (⟨false, true, 1, 1, 1, 0, 0, false, 0, [], 5, 10, 0, []⟩ : WindSim) from rfl,
            show gC1 = (⟨gC1.stream, 0⟩ : RNG) from rfl, iterWindPattern_succ, hc0]
      _ = iterWindPattern Mzero 8 (⟨false, true, 39/20, 1, 6/5, 3/50, 3/50, true, 5/2, [], 5, 10, 0, []⟩ : WindSim) (⟨gC1.stream, 6⟩ : RNG) := by
          rw [iterWindPattern_succ, hc1]
      _ = iterWindPattern Mzero 7 (⟨false, true, 93/40, 1, 6/5, 9/100, 9/100, true, 5/2, [], 5, 10, 0, []⟩ : WindSim) (⟨gC1.stream, 8⟩ : RNG) := by
          rw [iterWindPattern_succ, hc2]
      _ = iterWindPattern Mzero 6 (⟨false, true, 27/10, 1, 6/5, 3/25, 3/25, true, 5/2, [], 5, 10, 0, []⟩ : WindSim) (⟨gC1.stream, 10⟩ : RNG) := by
          rw [iterWindPattern_succ, hc3]
      _ = iterWindPattern Mzero 5 (⟨false, true, 123/40, 1, 6/5, 3/20, 3/20, true, 5/2, [], 5, 10, 0, []⟩ : WindSim) (⟨gC1.stream, 12⟩ : RNG) := by
          rw [iterWindPattern_succ, hc4]
      _ = iterWindPattern Mzero 4 (⟨false, true, 69/20, 1, 6/5, 9/50, 9/50, true, 5/2, [], 5, 10, 0, []⟩ : WindSim) (⟨gC1.stream, 14⟩ : RNG) := by
          rw [iterWindPattern_succ, hc5]
      _ = iterWindPattern Mzero 3 (⟨false, true, 37/10, 1, 6/5, 21/100, 21/100, true, 5/2, [], 5, 10, 0, []⟩ : WindSim) (⟨gC1.stream, 16⟩ : RNG) := by
          rw [iterWindPattern_succ, hc6]
      _ = iterWindPattern Mzero 2 (⟨false, true, 37/10, 1, 6/5, 6/25, 6/25, true, 5/2, [], 5, 10, 0, []⟩ : WindSim) (⟨gC1.stream, 18⟩ : RNG) := by
          rw [iterWindPattern_succ, hc7]
      _ = iterWindPattern Mzero 1 (⟨false, true, 37/10, 1, 6/5, 27/100, 27/100, true, 5/2, [], 5, 10, 0, []⟩ : WindSim) (⟨gC1.stream, 20⟩ : RNG) := by
          rw [iterWindPattern_succ, hc8]
      _ = iterWindPattern Mzero 0 (⟨false, true, 37/10, 1, 6/5, 3/10, 3/10, true, 5/2, [], 5, 10, 0, []⟩ : WindSim) (⟨gC1.stream, 22⟩ : RNG) := by
          rw [iterWindPattern_succ, hc9]
      _ = ((⟨false, true, 37/10, 1, 6/5, 3/10, 3/10, true, 5/2, [], 5, 10, 0, []⟩ : WindSim), (⟨gC1.stream, 22⟩ : RNG)) := rfl
  have hclaim : iterWindPatternClaimC1 Mzero 10 sC1claim gC1 =
      ((⟨true, 6/5, 1, 6/5, 3/10, 3/10, false, 5/2, 3/10⟩ : WindStateC1), (⟨gC1.stream, 13⟩ : RNG)) := by
    calc iterWindPatternClaimC1 Mzero 10 sC1claim gC1
        = iterWindPatternClaimC1 Mzero 9 (⟨true, 49/20, 1, 6/5, 3/100, 3/100, true, 5/2, 3/10⟩ : WindStateC1) (⟨gC1.stream, 4⟩ : RNG) := by
          rw [show sC1claim = (⟨true, 1, 1, 1, 0, 0, false, 0, 0⟩ : WindStateC1) from rfl,
            show gC1 = (⟨gC1.stream, 0⟩ : RNG) from rfl, iterWindPatternClaimC1_succ, hs0]
      _ = iterWindPatternClaimC1 Mzero 8 (⟨true, 37/10, 1, 6/5, 3/50, 3/50, true, 5/2, 3/10⟩ : WindStateC1) (⟨gC1.stream, 5⟩ : RNG) := by
          rw [iterWindPatternClaimC1_succ, hs1]
      _ = iterWindPatternClaimC1 Mzero 7 (⟨true, 37/10, 1, 6/5, 9/100, 9/100, true, 5/2, 3/10⟩ : WindStateC1) (⟨gC1.stream, 6⟩ : RNG) := by
          rw [iterWindPatternClaimC1_succ, hs2]
      _ = iterWindPatternClaimC1 Mzero 6 (⟨true, 37/10, 1, 6/5, 3/25, 3/25, true, 5/2, 3/10⟩ : WindStateC1) (⟨gC1.stream, 7⟩ : RNG) := by
          rw [iterWindPatternClaimC1_succ, hs3]
      _ = iterWindPatternClaimC1 Mzero 5 (⟨true, 37/10, 1, 6/5, 3/20, 3/20, true, 5/2, 3/10⟩ : WindStateC1) (⟨gC1.stream, 8⟩ : RNG) := by
          rw [iterWindPatternClaimC1_succ, hs4]
      _ = iterWindPatternClaimC1 Mzero 4 (⟨true, 37/10, 1, 6/5, 9/50, 9/50, true, 5/2, 3/10⟩ : WindStateC1) (⟨gC1.stream, 9⟩ : RNG) := by
          rw [iterWindPatternClaimC1_succ, hs5]
      _ = iterWindPatternClaimC1 Mzero 3 (⟨true, 37/10, 1, 6/5, 21/100, 21/100, true, 5/2, 3/10⟩ : WindStateC1) (⟨gC1.stream, 10⟩ : RNG) := by
          rw [iterWindPatternClaimC1_succ, hs6]
      _ = iterWindPatternClaimC1 Mzero 2 (⟨true, 37/10, 1, 6/5, 6/25, 6/25, true, 5/2, 3/10⟩ : WindStateC1) (⟨gC1.stream, 11⟩ : RNG) := by
          rw [iterWindPatternClaimC1_succ, hs7]
      _ = iterWindPatternClaimC1 Mzero 1 (⟨true, 49/20, 1, 6/5, 27/100, 27/100, true, 5/2, 3/10⟩ : WindStateC1) (⟨gC1.stream, 12⟩ : RNG) := by
          rw [iterWindPatternClaimC1_succ, hs8]
      _ = iterWindPatternClaimC1 Mzero 0 (⟨true, 6/5, 1, 6/5, 3/10, 3/10, false, 5/2, 3/10⟩ : WindStateC1) (⟨gC1.stream, 13⟩ : RNG) := by
          rw [iterWindPatternClaimC1_succ, hs9]
      _ = ((⟨true, 6/5, 1, 6/5, 3/10, 3/10, false, 5/2, 3/10⟩ : WindStateC1), (⟨gC1.stream, 13⟩ : RNG)) := rfl
  rw [hcode, hclaim]
  norm_num

/-- Witness for the amended C1 at the concrete inactive state sC1code
with the all-zero random source (whose first draw triggers a gust). -/
theorem C1_gust_sampling_amended_witness :
    UnitStream gZero ∧
    ((sC1code.gust_active = false →
      gZero.stream gZero.pos <
        (if sC1code.high_density then (1:ℚ)/100 else 1/200) →
      ((sC1code.update_wind_pattern Mzero gZero).1.gust_strength =
          5/2 + (5 - 5/2) * gZero.stream (gZero.pos + 1) ∧
        5/2 ≤ (sC1code.update_wind_pattern Mzero gZero).1.gust_strength ∧
        (sC1code.update_wind_pattern Mzero gZero).1.gust_strength ≤ 5 ∧
        (sC1code.update_wind_pattern Mzero gZero).1.gust_active = true ∧
        (sC1code.update_wind_pattern Mzero gZero).1.gust_timer = UPDATE_INTERVAL)) ∧
    (sC1code.gust_active = true →
      (((3:ℚ)/10 ≤ 3/10 + (6/5 - 3/10) * gZero.stream gZero.pos ∧
        3/10 + (6/5 - 3/10) * gZero.stream gZero.pos ≤ 6/5) ∧
      (3/10 + (6/5 - 3/10) * gZero.stream gZero.pos ≤
          sC1code.gust_timer + UPDATE_INTERVAL →
        (sC1code.update_wind_pattern Mzero gZero).1.gust_active = false ∧
        (sC1code.update_wind_pattern Mzero gZero).1.wind_strength =
          (sC1code.update_wind_pattern Mzero gZero).1.base_wind_strength) ∧
      (sC1code.gust_timer + UPDATE_INTERVAL <
          3/10 + (6/5 - 3/10) * gZero.stream gZero.pos →
        (sC1code.update_wind_pattern Mzero gZero).1.gust_active = true ∧
        (sC1code.update_wind_pattern Mzero gZero).1.gust_strength =
          sC1code.gust_strength)))) :=
  ⟨gZero_unit, C1_gust_sampling_amended sC1code Mzero gZero gZero_unit⟩

/-- C8: draw_particles writes the particles in ascending layer order
(the sorted list is layer-monotone and a permutation of the live list)
at their truncated integer cells, with the attribute the claim
describes: under an active gust with strength above 2.0, fast particles
(speed above 1.2) get the bold white attribute and the rest the bold
magenta one; otherwise the attribute is keyed only by layer (1 dim,
2 normal, 3 bold) in the configured wind hue. -/
theorem C8_draw_order_and_attrs (s : WindSim) :
    (sortByLayer s.particles).Pairwise (fun a b => a.layer ≤ b.layer) ∧
    (sortByLayer s.particles).Perm s.particles ∧
    s.draw_particles = (sortByLayer s.particles).flatMap (fun p =>
      if 0 ≤ pyInt p.y ∧ pyInt p.y < s.rows ∧ 0 ≤ pyInt p.x ∧ pyInt p.x < s.cols
      then [⟨pyInt p.y, pyInt p.x, p.char, claimAttrC8 s p⟩]
      else []) := by
  refine ⟨?_, ?_, ?_⟩
  · have hs := @List.sorted_mergeSort WindParticle
      (fun a b : WindParticle => decide (a.layer ≤ b.layer))
      (fun a b c hab hbc => by
        simp only [decide_eq_true_eq] at hab hbc ⊢
        omega)
      (fun a b => by
        simp only [Bool.or_eq_true, decide_eq_true_eq]
        omega)
      s.particles
    exact hs.imp (fun h => by simpa using h)
  · exact List.mergeSort_perm s.particles _
  · unfold WindSim.draw_particles
    refine congrArg _ (funext fun p => ?_)
    unfold drawParticle handled addstr particleAttr claimAttrC8
    split_ifs with h <;> rfl

/-- C9: every cell write the renderer performs, in particle mode and in
density mode, targets a cell inside the active surface: an attempted
write outside it is silently dropped (the per-write try/except around
addstr) and never propagates, so performing a draw leaves every
out-of-bounds cell of the screen untouched. -/
theorem C9_oob_writes_dropped (s : WindSim) (scr : Screen) (y x : ℤ) :
    (∀ w ∈ s.draw_particles,
      0 ≤ w.y ∧ w.y < s.rows ∧ 0 ≤ w.x ∧ w.x < s.cols) ∧
    (∀ w ∈ s.draw_density,
      0 ≤ w.y ∧ w.y < s.rows ∧ 0 ≤ w.x ∧ w.x < s.cols) ∧
    (¬(0 ≤ y ∧ y < s.rows ∧ 0 ≤ x ∧ x < s.cols) →
      applyWrites scr s.draw_particles (y, x) = scr (y, x) ∧
      applyWrites scr s.draw_density (y, x) = scr (y, x)) := by
  refine ⟨fun w hw => draw_particles_bounds s hw,
    fun w hw => draw_density_bounds s hw, fun hout => ⟨?_, ?_⟩⟩
  · refine applyWrites_frame scr _ _ (fun w hw hc => hout ?_)
    obtain ⟨h1, h2, h3, h4⟩ := draw_particles_bounds s hw
    rw [Prod.mk.injEq] at hc
    exact ⟨hc.1 ▸ h1, hc.1 ▸ h2, hc.2 ▸ h3, hc.2 ▸ h4⟩
  · refine applyWrites_frame scr _ _ (fun w hw hc => hout ?_)
    obtain ⟨h1, h2, h3, h4⟩ := draw_density_bounds s hw
    rw [Prod.mk.injEq] at hc
    exact ⟨hc.1 ▸ h1, hc.1 ▸ h2, hc.2 ▸ h3, hc.2 ▸ h4⟩

/-- Witness for C9 at the concrete state sC9 (whose single particle
lies outside the surface) and the out-of-bounds cell (5, 5). -/
theorem C9_oob_writes_dropped_witness :
    (∀ w ∈ sC9.draw_particles,
      0 ≤ w.y ∧ w.y < sC9.rows ∧ 0 ≤ w.x ∧ w.x < sC9.cols) ∧
    (∀ w ∈ sC9.draw_density,
      0 ≤ w.y ∧ w.y < sC9.rows ∧ 0 ≤ w.x ∧ w.x < sC9.cols) ∧
    (¬((0:ℤ) ≤ 5 ∧ (5:ℤ) < sC9.rows ∧ (0:ℤ) ≤ 5 ∧ (5:ℤ) < sC9.cols) →
      applyWrites scrEmpty sC9.draw_particles (5, 5) = scrEmpty (5, 5) ∧
      applyWrites scrEmpty sC9.draw_density (5, 5) = scrEmpty (5, 5)) :=
  C9_oob_writes_dropped sC9 scrEmpty 5 5

/-- C2: along every run of the event loop from a state satisfying the
population invariant, with well-formed resize notifications, the
population size never exceeds the spawn target after the spawn step:
at most min(2000, int(cols * rows * 0.15)) in high-density mode and at
most int(cols * 0.5) in normal mode; generate_particles only appends
particles (never removes any), and the population is emptied by a
density-level toggle and by a resize before a new target applies. -/
theorem C2_population_bound (M : MathModel) (s : WindSim) (es : List (Option Event)) (g : RNG)
    (hs : countInv s) (hes : ∀ e ∈ es, eventWF e = true) :
    (((runEvents M s es g).1.particles.length : ℤ) ≤
      max (runEvents M s es g).1.target_count 0) ∧
    ((runEvents M s es g).1.high_density = true →
      ((runEvents M s es g).1.particles.length : ℤ) ≤
        min (pyInt (((runEvents M s es g).1.cols : ℚ) *
          ((runEvents M s es g).1.rows : ℚ) * (15/100))) 2000) ∧
    ((runEvents M s es g).1.high_density = false →
      ((runEvents M s es g).1.particles.length : ℤ) ≤
        pyInt (((runEvents M s es g).1.cols : ℚ) * (1/2))) ∧
    (∀ (t : WindSim) (g' : RNG), ∃ tail,
      (t.generate_particles M g').1.particles = t.particles ++ tail) ∧
    (∀ (t : WindSim), (handleEvent t (some .toggleDensityLevel)).particles = [] ∧
      ∀ (r c : ℤ), (handleEvent t (some (.resize r c))).particles = []) := by
  obtain ⟨hlen, hrow, hcol⟩ := countInv_runEvents M es s g hs hes
  have hrowq : (0:ℚ) ≤ ((runEvents M s es g).1.rows : ℚ) := by exact_mod_cast hrow
  have hcolq : (0:ℚ) ≤ ((runEvents M s es g).1.cols : ℚ) := by exact_mod_cast hcol
  refine ⟨hlen, ?_, ?_, ?_, ?_⟩
  · intro hhd
    have ht : (runEvents M s es g).1.target_count =
        min (pyInt (((runEvents M s es g).1.cols : ℚ) *
          ((runEvents M s es g).1.rows : ℚ) * (15/100))) 2000 := by
      unfold WindSim.target_count
      rw [hhd]
      simp
    have h0 : 0 ≤ pyInt (((runEvents M s es g).1.cols : ℚ) *
        ((runEvents M s es g).1.rows : ℚ) * (15/100)) :=
      pyInt_nonneg (by positivity)
    rw [ht] at hlen
    omega
  · intro hhd
    have ht : (runEvents M s es g).1.target_count =
        pyInt (((runEvents M s es g).1.cols : ℚ) * (1/2)) := by
      unfold WindSim.target_count
      rw [hhd]
      simp
    have h0 : 0 ≤ pyInt (((runEvents M s es g).1.cols : ℚ) * (1/2)) :=
      pyInt_nonneg (by positivity)
    rw [ht] at hlen
    omega
  · intro t g'
    obtain ⟨tail, h1, _⟩ := generate_particles_shape t M g'
    exact ⟨tail, by rw [h1]⟩
  · exact fun t => ⟨rfl, fun r c => rfl⟩

/-- Witness for C2: the initial high-density state on a 2 x 10 grid,
with one resize key pending. -/
theorem C2_population_bound_witness :
    countInv (WindSim.mkInitial false true 2 10) ∧
    (∀ e ∈ [some (Event.resize 3 4)], eventWF e = true) ∧
    ((((runEvents Mzero (WindSim.mkInitial false true 2 10)
        [some (Event.resize 3 4)] gZero).1.particles.length : ℤ) ≤
      max (runEvents Mzero (WindSim.mkInitial false true 2 10)
        [some (Event.resize 3 4)] gZero).1.target_count 0) ∧
    ((runEvents Mzero (WindSim.mkInitial false true 2 10)
        [some (Event.resize 3 4)] gZero).1.high_density = true →
      (((runEvents Mzero (WindSim.mkInitial false true 2 10)
        [some (Event.resize 3 4)] gZero).1.particles.length : ℤ) ≤
        min (pyInt (((runEvents Mzero (WindSim.mkInitial false true 2 10)
          [some (Event.resize 3 4)] gZero).1.cols : ℚ) *
          ((runEvents Mzero (WindSim.mkInitial false true 2 10)
          [some (Event.resize 3 4)] gZero).1.rows : ℚ) * (15/100))) 2000)) ∧
    ((runEvents Mzero (WindSim.mkInitial false true 2 10)
        [some (Event.resize 3 4)] gZero).1.high_density = false →
      (((runEvents Mzero (WindSim.mkInitial false true 2 10)
        [some (Event.resize 3 4)] gZero).1.particles.length : ℤ) ≤
        pyInt (((runEvents Mzero (WindSim.mkInitial false true 2 10)
          [some (Event.resize 3 4)] gZero).1.cols : ℚ) * (1/2)))) ∧
    (∀ (t : WindSim) (g' : RNG), ∃ tail,
      (t.generate_particles Mzero g').1.particles = t.particles ++ tail) ∧
    (∀ (t : WindSim), (handleEvent t (some .toggleDensityLevel)).particles = [] ∧
      ∀ (r c : ℤ), (handleEvent t (some (.resize r c))).particles = [])) := by
  have h1 : countInv (WindSim.mkInitial false true 2 10) := by
    unfold countInv WindSim.mkInitial
    norm_num
  have h2 : ∀ e ∈ [some (Event.resize 3 4)], eventWF e = true := by decide
  exact ⟨h1, h2, C2_population_bound Mzero (WindSim.mkInitial false true 2 10)
    [some (Event.resize 3 4)] gZero h1 h2⟩

end Cbreeze
